import Mathlib

/-!
Shallow embedding of `src/clitest.py` (a declarative command-line test runner):
the schema validator (`validate_suite_manually` and helpers), the text
normalizer (`normalize_output`), the stream comparator (`compare_streams`),
and the execution engine (`run_command_in_env`, `run_test_case`, `run_suite`).

XML elements are modelled as a tree of tag / attributes / text / children.
Process execution is modelled by an explicit `World` oracle giving the outcome
of every shell command and of the command under test; the run functions also
return the ordered trace of spawn events, and return `none` where the Python
code would raise an uncaught exception.
-/

/-- Model of an `xml.etree.ElementTree` element: tag name, attribute
dictionary (keys unique in a parsed document; lookup takes the first match),
text content (`None` or a string), and the ordered list of direct children. -/
inductive Element : Type where
  | mk : String → List (String × String) → Option String → List Element → Element

def Element.tag : Element → String
  | .mk t _ _ _ => t

def Element.attribs : Element → List (String × String)
  | .mk _ a _ _ => a

def Element.text : Element → Option String
  | .mk _ _ tx _ => tx

def Element.children : Element → List Element
  | .mk _ _ _ c => c

/-- Python `element.get(key)`: attribute lookup, `None` when absent. -/
def Element.getAttr (el : Element) (k : String) : Option String :=
  (el.attribs.find? (fun p => p.1 = k)).map Prod.snd

/-- Python `element.find(tag)`: the first direct child with the given tag. -/
def Element.findTag (el : Element) (t : String) : Option Element :=
  el.children.find? (fun c => c.tag = t)

/-- Python `element.findall(tag)`: all direct children with the given tag. -/
def Element.findallTag (el : Element) (t : String) : List Element :=
  el.children.filter (fun c => c.tag = t)

/-- The whitespace characters of Python's `str.strip` / regex `\s`
(restricted to ASCII, which covers every string this program handles). -/
def pyIsSpace (c : Char) : Bool :=
  c = ' ' || c = '\t' || c = '\n' || c = '\x0b' || c = '\x0c' || c = '\r'

/-- Python `str.strip()` on a character list. -/
def pyStripList (l : List Char) : List Char :=
  ((l.dropWhile pyIsSpace).reverse.dropWhile pyIsSpace).reverse

/-- Python `str.strip()`. -/
def pyStrip (s : String) : String :=
  String.mk (pyStripList s.toList)

/-- Python `str.lower()` (ASCII). -/
def pyLower (s : String) : String :=
  String.mk (s.toList.map Char.toLower)

/-- Python `str.split()` with no separator: split on whitespace runs,
dropping empty fields (single structural pass with an accumulator of the
current reversed field). -/
def pySplitWsGo : List Char → List Char → List String
  | [], acc => if acc = [] then [] else [String.mk acc.reverse]
  | c :: t, acc =>
    if pyIsSpace c then
      if acc = [] then pySplitWsGo t [] else String.mk acc.reverse :: pySplitWsGo t []
    else pySplitWsGo t (c :: acc)

def pySplitWs (s : String) : List String :=
  pySplitWsGo s.toList []

/-- Python `s.split(sep)` for a one-character separator: split at every
occurrence, keeping empty fields. -/
def pySplitOnGo (sep : Char) : List Char → List Char → List String
  | [], acc => [String.mk acc.reverse]
  | c :: t, acc =>
    if c = sep then String.mk acc.reverse :: pySplitOnGo sep t []
    else pySplitOnGo sep t (c :: acc)

def pySplitOn (sep : Char) (s : String) : List String :=
  pySplitOnGo sep s.toList []

/-- Python `int(s)` on an already stripped string: optional sign followed by
at least one decimal digit (underscore/unicode forms are outside the model). -/
def pyInt (s : String) : Option Int :=
  match s.toList with
  | [] => none
  | c :: rest =>
    let (neg, digits) :=
      if c = '-' then (true, rest) else if c = '+' then (false, rest) else (false, c :: rest)
    if digits = [] ∨ ¬ digits.all Char.isDigit then none
    else
      let n : Nat := digits.foldl (fun acc d => 10 * acc + d.toNat - 48) 0
      some (if neg then -(n : Int) else (n : Int))

def digitsToNat (l : List Char) : Nat :=
  l.foldl (fun acc d => 10 * acc + d.toNat - 48) 0

/-- Model of a Python float as an unnormalized scaled decimal
`mantissa * 10 ^ exp10`. The program never does float arithmetic or float
comparison: a parsed timeout is only passed to the process-spawning
facility and rendered into one diagnostic message, so the scaled-decimal
value is a faithful executable stand-in for the IEEE value. -/
structure PyFloat where
  mantissa : Int
  exp10 : Int
deriving DecidableEq

/-- Python `float(s)`: strip, optional sign, decimal digits with an optional
fractional part and an optional decimal exponent (`inf`, `nan` and
underscored literals are outside the model; validation inputs in this
development never use them). -/
def pyFloat (s : String) : Option PyFloat :=
  match pyStripList s.toList with
  | [] => none
  | c :: rest =>
    let (neg, body) :=
      if c = '-' then (true, rest) else if c = '+' then (false, rest) else (false, c :: rest)
    let intPart := body.takeWhile Char.isDigit
    let afterInt := body.dropWhile Char.isDigit
    let (fracPart, afterFrac) :=
      match afterInt with
      | '.' :: r => (r.takeWhile Char.isDigit, r.dropWhile Char.isDigit)
      | _ => ([], afterInt)
    if intPart = [] ∧ fracPart = [] then none
    else
      let m : Int := (digitsToNat (intPart ++ fracPart) : Int)
      let m := if neg then -m else m
      match afterFrac with
      | [] => some ⟨m, -(fracPart.length : Int)⟩
      | x :: er =>
        if x = 'e' ∨ x = 'E' then
          let (eneg, edigits) :=
            match er with
            | '-' :: d => (true, d)
            | '+' :: d => (false, d)
            | d => (false, d)
          if edigits = [] ∨ ¬ edigits.all Char.isDigit then none
          else
            let ev : Int := (digitsToNat edigits : Int)
            some ⟨m, (if eneg then -ev else ev) - (fracPart.length : Int)⟩
        else none

/-- Trailing-zero trimming for the fractional digit string of a float repr:
Python shows `2.5` for `2.50` but keeps one digit (`5.0`). -/
def trimFracZeros (l : List Char) : List Char :=
  let r := l.reverse.dropWhile (fun c => c = '0')
  if r = [] then ['0'] else r.reverse

/-- Model of Python `repr`/f-string rendering of a (non-huge) float: always a
decimal point, trailing zeros of the fraction trimmed down to one digit.
Scientific-notation switchover for very large/small magnitudes is outside
the model. -/
def pyFloatRepr (f : PyFloat) : String :=
  let sign := if f.mantissa < 0 then "-" else ""
  let digits := (toString f.mantissa.natAbs).toList
  let body :=
    if 0 ≤ f.exp10 then
      digits ++ List.replicate f.exp10.toNat '0' ++ ['.', '0']
    else
      let k := (-f.exp10).toNat
      if k < digits.length then
        digits.take (digits.length - k) ++ ['.'] ++ trimFracZeros (digits.drop (digits.length - k))
      else
        ['0', '.'] ++ trimFracZeros (List.replicate (k - digits.length) '0' ++ digits)
  sign ++ String.mk body

/-- Python f-string rendering of the `timeout_val` variable, which is either
`None` or a float. -/
def pyReprOptFloat : Option PyFloat → String
  | none => "None"
  | some f => pyFloatRepr f

/-- Lexicographic code-point comparison of strings, as Python `sorted` uses. -/
def charListLe : List Char → List Char → Bool
  | [], _ => true
  | _ :: _, [] => false
  | a :: as_, b :: bs =>
    if a.toNat < b.toNat then true
    else if a.toNat = b.toNat then charListLe as_ bs
    else false

def strLe (a b : String) : Bool :=
  charListLe a.toList b.toList

/-- Insertion into a sorted list. -/
def sortedInsert (x : String) : List String → List String
  | [] => [x]
  | y :: ys => if strLe x y then x :: y :: ys else y :: sortedInsert x ys

/-- Python `sorted` on strings (insertion sort; stability is irrelevant on
the duplicate-free lists it is applied to). -/
def pySorted : List String → List String
  | [] => []
  | x :: xs => sortedInsert x (pySorted xs)

/-- Deduplication (keeping the last occurrence), modelling the set of values
that a Python set comprehension retains (the program only ever asks for
membership or a sorted listing, both insensitive to the retention order). -/
def listUniq : List String → List String
  | [] => []
  | x :: xs => if x ∈ xs then listUniq xs else x :: listUniq xs

/-- Python `sorted(list(someSet))`: the distinct values, sorted. -/
def pySortedSet (l : List String) : List String :=
  pySorted (listUniq l)

/-- Python `repr` of a list of strings, as interpolated into the validator's
messages: `['a', 'b']`. -/
def pyListRepr (l : List String) : String :=
  "[" ++ String.intercalate ", " (l.map (fun s => "'" ++ s ++ "'")) ++ "]"

/-- Python `needle in hay` on strings (contiguous substring test). -/
def listIsSub (n : List Char) : List Char → Bool
  | [] => n.isPrefixOf []
  | c :: t => n.isPrefixOf (c :: t) || listIsSub n t

def pyInStr (needle hay : String) : Bool :=
  listIsSub needle.toList hay.toList

/-! ## Normalizer (`normalize_output`, clitest.py lines 297-301) -/

/-- Fe-escape finals of the ANSI regex (the class of codes 0x40-0x5A and
0x5C-0x5F, i.e. at-sign through Z plus backslash through underscore). -/
def isAnsiFe (c : Char) : Bool :=
  (0x40 <= c.toNat && c.toNat <= 0x5A) || (0x5C <= c.toNat && c.toNat <= 0x5F)

/-- CSI parameter bytes: codes 0x30-0x3F. -/
def isCsiParam (c : Char) : Bool :=
  0x30 <= c.toNat && c.toNat <= 0x3F

/-- CSI intermediate bytes: codes 0x20-0x2F. -/
def isCsiInter (c : Char) : Bool :=
  0x20 <= c.toNat && c.toNat <= 0x2F

/-- CSI final bytes: codes 0x40-0x7E. -/
def isCsiFinal (c : Char) : Bool :=
  0x40 <= c.toNat && c.toNat <= 0x7E

/-- Scanner state for the ANSI-escape deletion: either nothing pending, a
lone pending ESC, or a pending partial CSI sequence (whose raw characters
are buffered in order, to be emitted should the sequence abort). A match can
only ever start at an ESC, every buffered character after the leading ESC is
a bracket, parameter or intermediate byte (never an ESC), and the three CSI
byte classes are pairwise disjoint, so this one-pass scanner deletes exactly
the non-overlapping leftmost matches that Python `re.sub` deletes. -/
inductive AnsiSt : Type where
  | ground : AnsiSt
  | sawEsc : AnsiSt
  | inParams : List Char → AnsiSt
  | inInters : List Char → AnsiSt

/-- Python `re.sub` deleting every occurrence of the ANSI-escape pattern
(ESC followed by either one Fe final byte, or an open bracket, parameter
bytes, intermediate bytes and one final byte). -/
def stripAnsiGo : AnsiSt → List Char → List Char
  | .ground, [] => []
  | .sawEsc, [] => ['\x1b']
  | .inParams buf, [] => buf
  | .inInters buf, [] => buf
  | .ground, c :: t =>
    if c = '\x1b' then stripAnsiGo .sawEsc t else c :: stripAnsiGo .ground t
  | .sawEsc, c :: t =>
    if c = '[' then stripAnsiGo (.inParams ['\x1b', '[']) t
    else if isAnsiFe c then stripAnsiGo .ground t
    else if c = '\x1b' then '\x1b' :: stripAnsiGo .sawEsc t
    else '\x1b' :: c :: stripAnsiGo .ground t
  | .inParams buf, c :: t =>
    if isCsiParam c then stripAnsiGo (.inParams (buf ++ [c])) t
    else if isCsiInter c then stripAnsiGo (.inInters (buf ++ [c])) t
    else if isCsiFinal c then stripAnsiGo .ground t
    else if c = '\x1b' then buf ++ stripAnsiGo .sawEsc t
    else buf ++ c :: stripAnsiGo .ground t
  | .inInters buf, c :: t =>
    if isCsiInter c then stripAnsiGo (.inInters (buf ++ [c])) t
    else if isCsiFinal c then stripAnsiGo .ground t
    else if c = '\x1b' then buf ++ stripAnsiGo .sawEsc t
    else buf ++ c :: stripAnsiGo .ground t

def stripAnsi (l : List Char) : List Char :=
  stripAnsiGo .ground l

/-- Python `re.sub` collapsing every whitespace run to one space: emit one
space at the start of each run, skip the rest of the run. -/
def collapseWsGo : Bool → List Char → List Char
  | _, [] => []
  | inRun, c :: t =>
    if pyIsSpace c then
      if inRun then collapseWsGo true t else ' ' :: collapseWsGo true t
    else c :: collapseWsGo false t

def collapseWs (l : List Char) : List Char :=
  collapseWsGo false l

/-- Embedding of `normalize_output(text, normalize_rules_set)`
(clitest.py lines 297-301). -/
def normalizeOutput (text : String) (rules : List String) : String :=
  if text = "" then ""
  else
    let t1 := if "ansi" ∈ rules then String.mk (stripAnsi text.toList) else text
    let t2 := if "whitespace" ∈ rules then String.mk (pyStripList (collapseWs t1.toList)) else t1
    t2

/-- The rule-set parse shared by `compare_streams` and `_validate_stream`:
strip each comma-separated field, drop empty fields, lowercase the rest;
kept as a list whose membership agrees with the Python set. -/
def parseRules (s : String) : List String :=
  (pySplitOn ',' s).filterMap (fun r =>
    let t := pyStrip r
    if t = "" then none else some (pyLower t))

/-! ## Regular-expression fragment used by `compare_streams`

`re.search` comes from the Python standard library, not from this
repository. Modelled from the spec: a backtracking matcher for the pattern
fragment actually exercised here - literal characters, the escapes for
digit, whitespace and word classes, escaped punctuation, the any-character
dot, and the postfix quantifiers for one-or-more, zero-or-more and
optional. Patterns outside the fragment fail to parse and the search is
modelled as returning no match. -/

inductive RBase : Type where
  | lit : Char → RBase
  | digit : RBase
  | space : RBase
  | word : RBase
  | anyChar : RBase
deriving DecidableEq

inductive RQuant : Type where
  | one : RQuant
  | plus : RQuant
  | star : RQuant
  | opt : RQuant
deriving DecidableEq

def rMatches : RBase → Char → Bool
  | .lit c, d => c = d
  | .digit, d => d.isDigit
  | .space, d => pyIsSpace d
  | .word, d => d.isAlphanum || d = '_'
  | .anyChar, d => d ≠ '\n'

/-- Characters with special regex meaning that the modelled fragment does
not support as bare pattern characters (including the brace quantifiers,
matched by code point). -/
def rSpecial (c : Char) : Bool :=
  c ∈ ['(', ')', '[', ']', '|', '^', '$', '+', '*', '?', '\\'] ||
  (c.toNat = 0x7B || c.toNat = 0x7D)

def rEscBase (c : Char) : Option RBase :=
  if c = 'd' then some .digit
  else if c = 's' then some .space
  else if c = 'w' then some .word
  else if c.isAlphanum then none
  else some (.lit c)

def parseRegex : List Char → Option (List (RBase × RQuant))
  | [] => some []
  | '\\' :: rest =>
    (match rest with
     | [] => none
     | c :: r2 =>
       match rEscBase c with
       | none => none
       | some b =>
         match r2 with
         | '+' :: r3 => (parseRegex r3).map (fun ts => (b, RQuant.plus) :: ts)
         | '*' :: r3 => (parseRegex r3).map (fun ts => (b, RQuant.star) :: ts)
         | '?' :: r3 => (parseRegex r3).map (fun ts => (b, RQuant.opt) :: ts)
         | r3 => (parseRegex r3).map (fun ts => (b, RQuant.one) :: ts))
  | c :: rest =>
    if rSpecial c then none
    else
      let b := if c = '.' then RBase.anyChar else RBase.lit c
      match rest with
      | '+' :: r3 => (parseRegex r3).map (fun ts => (b, RQuant.plus) :: ts)
      | '*' :: r3 => (parseRegex r3).map (fun ts => (b, RQuant.star) :: ts)
      | '?' :: r3 => (parseRegex r3).map (fun ts => (b, RQuant.opt) :: ts)
      | r3 => (parseRegex r3).map (fun ts => (b, RQuant.one) :: ts)

/-- Backtracking match of the token list against some prefix of the
character list. Every recursive call strictly decreases the sum of the
remaining token count and the remaining character count (a star step either
consumes a character or discards the star), so the fuel passed by `rSearch`
below is always sufficient and the out-of-fuel branch is unreachable. -/
def rMatch : Nat → List (RBase × RQuant) → List Char → Bool
  | 0, _, _ => false
  | _ + 1, [], _ => true
  | fuel + 1, (b, q) :: ts, l =>
    match q with
    | .one =>
      (match l with
       | [] => false
       | c :: l2 => rMatches b c && rMatch fuel ts l2)
    | .plus =>
      (match l with
       | [] => false
       | c :: l2 => rMatches b c && rMatch fuel ((b, RQuant.star) :: ts) l2)
    | .star =>
      rMatch fuel ts l ||
      (match l with
       | [] => false
       | c :: l2 => rMatches b c && rMatch fuel ((b, RQuant.star) :: ts) l2)
    | .opt =>
      (match l with
       | [] => false
       | c :: l2 => rMatches b c && rMatch fuel ts l2) || rMatch fuel ts l

/-- Try to match at every start position, as `re.search` does. -/
def rSearchFrom (ts : List (RBase × RQuant)) : List Char → Bool
  | [] => rMatch (ts.length * 2 + 1) ts []
  | c :: l2 => rMatch (ts.length * 2 + (c :: l2).length * 2 + 1) ts (c :: l2) || rSearchFrom ts l2

/-- Model of `re.search(pattern, text)` truthiness on the supported pattern
fragment. -/
def pyReSearch (pattern text : String) : Bool :=
  match parseRegex pattern.toList with
  | some ts => rSearchFrom ts text.toList
  | none => false

/-! ## StreamComparator (`compare_streams`, clitest.py lines 303-320) -/

structure CompareResult where
  passed : Bool
  reason : String
  normalizedActual : String
  normalizedExpected : String
deriving DecidableEq

/-- Embedding of `compare_streams(actual_output, expect_element)`
(clitest.py lines 303-320); the source's constant fifth return value `{}` is
dropped. -/
def compareStreams (actualOutput : String) (expectElement : Element) : CompareResult :=
  let expectedText := (expectElement.text).getD ""
  let matchType := (expectElement.getAttr "match").getD "exact"
  let normalizeRulesStr := (expectElement.getAttr "normalize").getD ""
  let normalizeRules := parseRules normalizeRulesStr
  let normalizedActual := normalizeOutput actualOutput normalizeRules
  let normalizedExpected :=
    if "whitespace" ∈ normalizeRules then normalizeOutput expectedText normalizeRules
    else expectedText
  let passed :=
    (matchType = "exact" && normalizedActual == normalizedExpected) ||
    (matchType = "contains" && pyInStr normalizedExpected normalizedActual) ||
    (matchType = "regex" && pyReSearch normalizedExpected normalizedActual)
  let reason := if passed then "" else "'" ++ matchType ++ "' match failed"
  ⟨passed, reason, normalizedActual, normalizedExpected⟩

/-! ## SchemaValidator (clitest.py lines 189-293) -/

/-- Embedding of `_is_non_empty_string(text)`: Python truthiness of
`text and text.strip()`. -/
def isNonEmptyString : Option String → Bool
  | none => false
  | some s => s ≠ "" && pyStrip s ≠ ""

/-- Embedding of `_validate_element(element, known_children, known_attrs)`
(clitest.py lines 194-205). -/
def validateElement (element : Element) (knownChildren knownAttrs : List String) :
    List String :=
  let childTags := element.children.map Element.tag
  let unknownChildren := pySortedSet (childTags.filter (fun t => t ∉ knownChildren))
  let attrKeys := element.attribs.map Prod.fst
  let unknownAttrs := pySortedSet (attrKeys.filter (fun k => k ∉ knownAttrs))
  (if unknownChildren ≠ [] then
    ["<" ++ element.tag ++ "> contains unknown child element(s): " ++ pyListRepr unknownChildren]
   else []) ++
  (if unknownAttrs ≠ [] then
    ["<" ++ element.tag ++ "> contains unknown attribute(s): " ++ pyListRepr unknownAttrs]
   else [])

/-- Embedding of `_validate_stream(element)` (clitest.py lines 207-218). -/
def validateStream (element : Element) : List String :=
  validateElement element [] ["match", "normalize"] ++
  (match element.getAttr "match" with
   | some v =>
     if v ∉ (["exact", "contains", "regex"] : List String) then
       ["<" ++ element.tag ++ "> has invalid 'match' attribute value: '" ++ v ++ "'"]
     else []
   | none => []) ++
  (match element.getAttr "normalize" with
   | some s =>
     let invalid := pySortedSet ((parseRules s).filter (fun r => r ∉ (["ansi", "whitespace"] : List String)))
     if invalid ≠ [] then
       ["<" ++ element.tag ++ "> has invalid 'normalize' keyword(s): " ++ pyListRepr invalid]
     else []
   | none => [])

/-- Embedding of the exit-code check inside `_validate_expect`: Python
`int(el.text.strip())` raises for a `None` text (AttributeError) or an
unparseable one (ValueError), both caught and turned into the message. -/
def exitCodeErrors (el : Element) : List String :=
  match el.text with
  | none => ["<exit_code> must contain a valid integer."]
  | some t =>
    if (pyInt (pyStrip t)).isNone then ["<exit_code> must contain a valid integer."] else []

/-- Embedding of `_validate_expect(element)` (clitest.py lines 220-236). -/
def validateExpect (element : Element) : List String :=
  validateElement element ["stdout", "stderr", "exit_code"] [] ++
  (if element.children.isEmpty then ["<expect> block cannot be empty."] else []) ++
  (["stdout", "stderr", "exit_code"].flatMap (fun childTag =>
    if 1 < (element.findallTag childTag).length then
      ["<expect> block has multiple <" ++ childTag ++ "> children; only one is allowed."]
    else [])) ++
  (match element.findTag "stdout" with
   | some el => validateStream el
   | none => []) ++
  (match element.findTag "stderr" with
   | some el => validateStream el
   | none => []) ++
  (match element.findTag "exit_code" with
   | some el => exitCodeErrors el
   | none => [])

/-- The timeout-attribute check shared by `_validate_test_case` and
`validate_suite_manually`: the walrus guard `if (s := element.get('timeout'))`
is Python truthiness, so an absent or empty attribute skips the float parse. -/
def timeoutAttrErrors (element : Element) (ownerTag : String) : List String :=
  match element.getAttr "timeout" with
  | some s =>
    if s = "" then []
    else if (pyFloat s).isNone then ["<" ++ ownerTag ++ "> has an invalid 'timeout' attribute."]
    else []
  | none => []

/-- Embedding of `_validate_test_case(element)` (clitest.py lines 238-263). -/
def validateTestCase (element : Element) : List String :=
  validateElement element ["environment", "command", "args", "stdin", "expect"]
      ["description", "timeout"] ++
  timeoutAttrErrors element "test-case" ++
  (match element.findTag "command" with
   | none => ["<test-case> is missing required <command> child."]
   | some cmd =>
     if ¬ isNonEmptyString cmd.text then ["<command> tag cannot be empty."] else []) ++
  (match element.findTag "args" with
   | some argsEl =>
     (if (argsEl.findallTag "arg").isEmpty then ["<args> must contain at least one <arg> tag."] else []) ++
     (argsEl.findallTag "arg").flatMap (fun arg =>
       if ¬ isNonEmptyString arg.text then ["<arg> tag cannot be empty."] else [])
   | none => []) ++
  (match element.findTag "expect" with
   | none => ["<test-case> is missing required <expect> child."]
   | some expect => validateExpect expect)

/-- Embedding of the per-case aggregation loop of `validate_suite_manually`:
a case with errors contributes a header naming its description (or its
index) plus its indented error lines. -/
def casesErrors : Nat → List Element → List String
  | _, [] => []
  | i, caseEl :: rest =>
    let caseErrs := validateTestCase caseEl
    (if caseErrs ≠ [] then
      ("Invalid test case '" ++ ((caseEl.getAttr "description").getD ("at index " ++ toString i)) ++ "':")
        :: caseErrs.map (fun e => "  - " ++ e)
     else []) ++ casesErrors (i + 1) rest

/-- Embedding of `validate_suite_manually` (clitest.py lines 265-293) on an
already parsed root element (the `ET.ParseError` branch concerns the XML
parser, an external collaborator, and is outside the model). The suite is
accepted iff the returned list is empty. -/
def validateSuiteManually (root : Element) : List String :=
  if root.tag ≠ "test-suite" then
    ["Invalid root element. Expected <test-suite>, but found <" ++ root.tag ++ ">."]
  else
    validateElement root ["environment", "test-cases"] ["description", "timeout"] ++
    timeoutAttrErrors root "test-suite" ++
    (match root.findTag "test-cases" with
     | none => ["<test-suite> is missing required <test-cases> child."]
     | some tcWrapper =>
       validateElement tcWrapper ["test-case"] [] ++
       casesErrors 0 (tcWrapper.findallTag "test-case"))

/-! ## CommandExecutor and runners (clitest.py lines 322-449)

Process spawning is operating-system behaviour, modelled by a `World`
oracle: `shell` gives the outcome of each `subprocess.run(text, shell=True)`
call that `run_command_in_env` makes, and `proc` gives the outcome of the
`subprocess.run(args, ...)` call on the command under test. The run
functions additionally return the ordered trace of spawn events, and return
`none` exactly where the Python code would let an exception escape
uncaught. -/

/-- The process environment mapping: variable name to value. -/
def PyEnv : Type := String → Option String

/-- Python `env[k] = v`. -/
def envSet (e : PyEnv) (k v : String) : PyEnv :=
  fun k2 => if k2 = k then some v else e k2

/-- Outcome of a shell-interpreted `subprocess.run(text, shell=True,
check=True, capture_output=True)`: a completed process with an exit code and
captured streams, or a missing executable (FileNotFoundError). -/
inductive ShellOutcome : Type where
  | exited : Int → String → String → ShellOutcome
  | notFound : ShellOutcome
deriving DecidableEq

/-- Outcome of the argv-form `subprocess.run(args, ...)` on the command
under test: completed (stdout, stderr, exit code), timed out (with the
partial output the TimeoutExpired exception carries, which the program
never reads), executable not found, or any other exception (caught by the
generic handler), carrying the exception's rendering. -/
inductive ProcOutcome : Type where
  | completed : String → String → Int → ProcOutcome
  | timedOut : String → String → ProcOutcome
  | notFound : ProcOutcome
  | failed : String → ProcOutcome
deriving DecidableEq

structure World where
  shell : String → PyEnv → Option String → ShellOutcome
  proc : List String → PyEnv → Option String → Option String → Option PyFloat → ProcOutcome

/-- One spawn event: a shell command run by `run_command_in_env`, or the
command under test with its argv, environment, working directory, stdin and
timeout. -/
inductive Event : Type where
  | shellE : String → PyEnv → Option String → Event
  | procE : List String → PyEnv → Option String → Option String → Option PyFloat → Event

/-- Embedding of `run_command_in_env(command_text, env_vars, working_dir)`
(clitest.py lines 322-329). `none` models the uncaught IndexError raised
while formatting the not-found message for a command text with no tokens. -/
def runCommandInEnv (w : World) (commandText : String) (envVars : PyEnv)
    (workingDir : Option String) : Option (Bool × String) :=
  match w.shell commandText envVars workingDir with
  | .exited rc _ err =>
    if rc = 0 then some (true, "")
    else some (false, "Command '" ++ commandText ++ "' failed with exit code " ++
      toString rc ++ ":\n" ++ pyStrip err)
  | .notFound =>
    match pySplitWs commandText with
    | tok :: _ => some (false, "Command not found: '" ++ tok ++ "'")
    | [] => none

/-- Run a list of setup/teardown command texts in order, stopping at the
first failure and returning its message (`some (some msg)`), or `some none`
when all succeed; `none` models an uncaught exception (a `None` command text
reaching `subprocess.run`, or the IndexError above). Also returns the trace
of shell events in order. -/
def runCmdSeq (w : World) (texts : List (Option String)) (envVars : PyEnv)
    (workingDir : Option String) : Option (Option String) × List Event :=
  match texts with
  | [] => (some none, [])
  | none :: _ => (none, [])
  | some t :: rest =>
    match runCommandInEnv w t envVars workingDir with
    | none => (none, [.shellE t envVars workingDir])
    | some (true, _) =>
      let (r, tr) := runCmdSeq w rest envVars workingDir
      (r, .shellE t envVars workingDir :: tr)
    | some (false, msg) => (some (some msg), [.shellE t envVars workingDir])

/-- Run a list of command texts in order discarding each result, as the
suite-teardown loop does; `none` models an uncaught exception as above. -/
def runCmdSeqDiscard (w : World) (texts : List (Option String)) (envVars : PyEnv)
    (workingDir : Option String) : Option Unit × List Event :=
  match texts with
  | [] => (some (), [])
  | none :: _ => (none, [])
  | some t :: rest =>
    match runCommandInEnv w t envVars workingDir with
    | none => (none, [.shellE t envVars workingDir])
    | some _ =>
      let (r, tr) := runCmdSeqDiscard w rest envVars workingDir
      (r, .shellE t envVars workingDir :: tr)

/-- The `suite_env` dictionary that `run_suite` builds and passes to
`run_test_case`: the suite `<variable>` elements (kept in document order;
Python's dict realizes last-wins on duplicate names, as sequential
application of `envSet` does), the suite working directory, description and
timeout. -/
structure SuiteEnv where
  suiteVars : List Element
  working_dir : Option String
  description : String
  timeout : Option PyFloat

/-- Apply `<variable>` elements to an environment in order:
`env[var.get("name")] = var.text or ""`. A `<variable>` with no name
attribute would make Python store a `None` key, poisoning the later
`subprocess.run` call; the claims only concern named variables, and such an
element is modelled as a no-op on the string-keyed mapping (which agrees
with the Python dict at every string key). -/
def applyVars (base : PyEnv) : List Element → PyEnv
  | [] => base
  | varEl :: rest =>
    match varEl.getAttr "name" with
    | some n => applyVars (envSet base n ((varEl.text).getD "")) rest
    | none => applyVars base rest

/-- The `<variable>` elements of an environment block owner (suite root or
test case): `element.find("environment")`, then `.find("variables")`, then
`.findall("variable")`. -/
def variableElems (el : Element) : List Element :=
  match (el.findTag "environment").bind (fun e => e.findTag "variables") with
  | some variablesEl => variablesEl.findallTag "variable"
  | none => []

/-- The setup command texts of an environment block owner. -/
def setupCmdTexts (el : Element) : List (Option String) :=
  match (el.findTag "environment").bind (fun e => e.findTag "setup") with
  | some setupEl => (setupEl.findallTag "command").map Element.text
  | none => []

/-- The teardown command texts of an environment block owner. -/
def teardownCmdTexts (el : Element) : List (Option String) :=
  match (el.findTag "environment").bind (fun e => e.findTag "teardown") with
  | some teardownEl => (teardownEl.findallTag "command").map Element.text
  | none => []

/-- Timeout resolution of `run_test_case` (clitest.py lines 344-346):
`timeout_val = suite_env["timeout"]`, overridden by `float(case timeout
attribute)` when that attribute is present and non-empty (the walrus guard
is Python truthiness). The outer `none` models the uncaught ValueError of
`float` on an unparseable non-empty attribute. -/
def resolveTimeout (se : SuiteEnv) (caseElement : Element) : Option (Option PyFloat) :=
  match caseElement.getAttr "timeout" with
  | some s => if s = "" then some se.timeout else (pyFloat s).map some
  | none => some se.timeout

/-- Working-directory resolution of `run_test_case` (clitest.py lines
341, 348-350): the suite working directory, overridden by the stripped text
of the case's `<working-directory>` element when that element exists and
its text is truthy. -/
def resolveWorkDir (se : SuiteEnv) (caseElement : Element) : Option String :=
  match (caseElement.findTag "environment").bind (fun e => e.findTag "working-directory") with
  | some wdEl =>
    match wdEl.text with
    | some t => if t = "" then se.working_dir else some (pyStrip t)
    | none => se.working_dir
  | none => se.working_dir

/-- The effective environment `run_test_case` spawns with (clitest.py lines
341-342, 351-353): ambient copy, suite variables overlaid, then case
variables overlaid. -/
def resolveEnv (ambient : PyEnv) (se : SuiteEnv) (caseElement : Element) : PyEnv :=
  applyVars (applyVars ambient se.suiteVars) (variableElems caseElement)

/-- The argv list of `run_test_case` (clitest.py lines 359-365):
`[command.text.strip()]` plus the `<arg>` texts of the first `<args>`
element. `none` models the uncaught AttributeError on a missing `<command>`
or a `None` command text, both outside the try-block; an `<arg>` with
`None` text (which Python would pass to `subprocess.run`, failing inside
the try-block) is modelled as the empty string and is unreachable for
validated suites. -/
def buildArgs (caseElement : Element) : Option (List String) :=
  match caseElement.findTag "command" with
  | none => none
  | some cmdEl =>
    match cmdEl.text with
    | none => none
    | some t =>
      some (pyStrip t ::
        (match caseElement.findTag "args" with
         | some argsEl => (argsEl.findallTag "arg").map (fun a => (a.text).getD "")
         | none => []))

/-- Result record of one test case (`TestCaseResult`, clitest.py lines
48-57); wall-clock duration is outside the model. Diagnostics keep the
Python dict's insertion order. -/
structure TestCaseResult where
  description : String
  classname : String
  passed : Bool
  message : String
  diagnostics : List (String × String)
  log : List String
deriving DecidableEq

/-- Assertion evaluation at the end of `run_test_case` (clitest.py lines
384-404): stdout, then stderr, then exit code, stopping at the first
failure. `none` models the uncaught exception on an `<exit_code>` whose
text is missing or unparseable (guaranteed absent by validation). -/
def evalExpect (expectEl : Element) (procOut procErr : String) (returncode : Int)
    (description classname : String) (log : List String) : Option TestCaseResult :=
  let failEarly : String → List (String × String) → Option TestCaseResult := fun m d =>
    some ⟨description, classname, false, m, d, log⟩
  match expectEl.findTag "stdout" with
  | some stdoutExpectEl =>
    let c := compareStreams procOut stdoutExpectEl
    if ¬ c.passed then
      failEarly "stdout mismatch"
        [("reason", c.reason), ("expected", c.normalizedExpected), ("got", c.normalizedActual)]
    else evalExpectAfterStdout expectEl procErr returncode description classname log
  | none => evalExpectAfterStdout expectEl procErr returncode description classname log
where
  evalExpectAfterStdout (expectEl : Element) (procErr : String) (returncode : Int)
      (description classname : String) (log : List String) : Option TestCaseResult :=
    let failEarly : String → List (String × String) → Option TestCaseResult := fun m d =>
      some ⟨description, classname, false, m, d, log⟩
    match expectEl.findTag "stderr" with
    | some stderrExpectEl =>
      let c := compareStreams procErr stderrExpectEl
      if ¬ c.passed then
        failEarly "stderr mismatch"
          [("reason", c.reason), ("expected", c.normalizedExpected), ("got", c.normalizedActual)]
      else evalExpectExit expectEl returncode description classname log
    | none => evalExpectExit expectEl returncode description classname log
  evalExpectExit (expectEl : Element) (returncode : Int)
      (description classname : String) (log : List String) : Option TestCaseResult :=
    let failEarly : String → List (String × String) → Option TestCaseResult := fun m d =>
      some ⟨description, classname, false, m, d, log⟩
    match expectEl.findTag "exit_code" with
    | some exitCodeEl =>
      match exitCodeEl.text with
      | none => none
      | some t =>
        match pyInt (pyStrip t) with
        | none => none
        | some expectedExitCode =>
          if returncode ≠ expectedExitCode then
            failEarly "Exit code mismatch"
              [("expected", toString expectedExitCode), ("got", toString returncode)]
          else some ⟨description, classname, true, "", [], log⟩
    | none => some ⟨description, classname, true, "", [], log⟩

/-- Embedding of `run_test_case(case_element, suite_env, log_messages)`
(clitest.py lines 331-404), parameterized by the ambient `os.environ` and
the world oracle. Returns the result (`none` for an uncaught exception) and
the ordered spawn-event trace. -/
def runTestCase (w : World) (ambient : PyEnv) (caseElement : Element) (se : SuiteEnv)
    (log : List String) : Option TestCaseResult × List Event :=
  let description := (caseElement.getAttr "description").getD "Unnamed Test Case"
  let classname := se.description
  let failEarly : String → List (String × String) → Option TestCaseResult := fun m d =>
    some ⟨description, classname, false, m, d, log⟩
  match resolveTimeout se caseElement with
  | none => (none, [])
  | some timeoutVal =>
    let currentEnv := resolveEnv ambient se caseElement
    let workingDir := resolveWorkDir se caseElement
    match runCmdSeq w (setupCmdTexts caseElement) currentEnv workingDir with
    | (none, tr) => (none, tr)
    | (some (some msg), tr) =>
      (failEarly "Test case setup command failed"
        [("error_type", "ConfigurationError"), ("error", msg)], tr)
    | (some none, tr) =>
      match buildArgs caseElement with
      | none => (none, tr)
      | some args =>
        let stdinData := (caseElement.findTag "stdin").bind Element.text
        let ev := Event.procE args currentEnv workingDir stdinData timeoutVal
        match w.proc args currentEnv workingDir stdinData timeoutVal with
        | .timedOut _ _ =>
          (failEarly "Test command timed out"
            [("error_type", "TimeoutExpired"),
             ("details", "Test case exceeded the specified timeout of " ++
               pyReprOptFloat timeoutVal ++ " seconds.")], tr ++ [ev])
        | .notFound =>
          (failEarly "Command execution failed"
            [("suggestion", "Ensure <command> '" ++ args.headD "" ++
              "' is a valid executable path.")], tr ++ [ev])
        | .failed excMsg =>
          (failEarly ("Unexpected error during execution: " ++ excMsg) [], tr ++ [ev])
        | .completed procOut procErr returncode =>
          match runCmdSeq w (teardownCmdTexts caseElement) currentEnv workingDir with
          | (none, tr2) => (none, tr ++ [ev] ++ tr2)
          | (some (some msg), tr2) =>
            (failEarly "Test case teardown command failed"
              [("error_type", "ConfigurationError"), ("error", msg)], tr ++ [ev] ++ tr2)
          | (some none, tr2) =>
            match caseElement.findTag "expect" with
            | none => (none, tr ++ [ev] ++ tr2)
            | some expectEl =>
              (evalExpect expectEl procOut procErr returncode description classname log,
               tr ++ [ev] ++ tr2)

/-- Result record of one suite (`SuiteResult`, clitest.py lines 59-74);
duration is outside the model. -/
structure PySuiteResult where
  description : String
  path : String
  test_cases : List TestCaseResult
  error : String
deriving DecidableEq

/-- Number of failed cases, as `SuiteResult.num_failures`. -/
def PySuiteResult.num_failures (r : PySuiteResult) : Nat :=
  (r.test_cases.filter (fun tc => ¬ tc.passed)).length

/-- The per-case loop of `run_suite` (clitest.py lines 435-440). -/
def runCases (w : World) (ambient : PyEnv) (se : SuiteEnv) (verbose : Bool) :
    List Element → Option (List TestCaseResult) × List Event
  | [] => (some [], [])
  | caseEl :: rest =>
    let logMessages :=
      if verbose then
        ["# Executing case: " ++ ((caseEl.getAttr "description").getD "Unnamed Test Case")]
      else []
    match runTestCase w ambient caseEl se logMessages with
    | (none, tr) => (none, tr)
    | (some r, tr) =>
      match runCases w ambient se verbose rest with
      | (none, tr2) => (none, tr ++ tr2)
      | (some rs, tr2) => (some (r :: rs), tr ++ tr2)

/-- Suite-timeout resolution of `run_suite` (clitest.py lines 414-415),
with the same truthiness guard and the same uncaught-ValueError `none`. -/
def suiteTimeoutResolved (root : Element) : Option (Option PyFloat) :=
  match root.getAttr "timeout" with
  | some s => if s = "" then some none else (pyFloat s).map some
  | none => some none

/-- Suite working directory (clitest.py lines 417-419): the stripped text of
the suite environment's `<working-directory>` element when present and
truthy. -/
def suiteWorkDir (root : Element) : Option String :=
  match (root.findTag "environment").bind (fun e => e.findTag "working-directory") with
  | some wdEl =>
    match wdEl.text with
    | some t => if t = "" then none else some (pyStrip t)
    | none => none
  | none => none

/-- Embedding of `run_suite(suite_path, pre_parsed_tree, args)`
(clitest.py lines 406-449), parameterized by the ambient environment and
the world oracle; `args.verbose` is the `verbose` flag. Returns the suite
result (`none` for an uncaught exception) and the ordered spawn-event
trace. -/
def runSuite (w : World) (ambient : PyEnv) (suitePath : String) (root : Element)
    (verbose : Bool) : Option PySuiteResult × List Event :=
  let suiteDescription := (root.getAttr "description").getD suitePath
  match suiteTimeoutResolved root with
  | none => (none, [])
  | some suiteTimeout =>
    let vars := variableElems root
    let setupEnv := applyVars ambient vars
    let workDir := suiteWorkDir root
    match runCmdSeq w (setupCmdTexts root) setupEnv workDir with
    | (none, tr) => (none, tr)
    | (some (some msg), tr) =>
      (some ⟨suiteDescription, suitePath, [], "Suite setup failed: " ++ msg⟩, tr)
    | (some none, tr) =>
      match root.findTag "test-cases" with
      | none => (none, tr)
      | some tcWrapper =>
        let se : SuiteEnv := ⟨vars, workDir, suiteDescription, suiteTimeout⟩
        match runCases w ambient se verbose (tcWrapper.findallTag "test-case") with
        | (none, tr2) => (none, tr ++ tr2)
        | (some results, tr2) =>
          let teardownEnv := applyVars ambient vars
          match runCmdSeqDiscard w (teardownCmdTexts root) teardownEnv workDir with
          | (none, tr3) => (none, tr ++ tr2 ++ tr3)
          | (some _, tr3) =>
            (some ⟨suiteDescription, suitePath, results, ""⟩, tr ++ tr2 ++ tr3)

/-- Discriminator: is this event a shell-command spawn (as opposed to the
command under test)? -/
def Event.isShell : Event → Bool
  | .shellE _ _ _ => true
  | .procE _ _ _ _ _ => false

/-! ## Specification-side definitions and concrete fixtures

The `spec...` definitions below follow the wording of the specification (for
refinement comparison against the source-derived definitions above); the
`ex.../w...` definitions are concrete documents and worlds used by witnesses
and counterexamples. -/

/-- Spec wording of the effective-variable overlay, read off 4.2 of the
specification: the value of the last case-level variable of that name, else
the last suite-level variable of that name, else the ambient value. -/
def lookupVarLast : List Element → String → Option String
  | [], _ => none
  | varEl :: rest, k =>
    (lookupVarLast rest k).or
      (match varEl.getAttr "name" with
       | some n => if n = k then some ((varEl.text).getD "") else none
       | none => none)

/-- Literal spec wording of timeout resolution (claim C6: "the timeout is
the case's if the case attribute is present, else the suite's if present,
else unset"): presence of the attribute alone selects the case's parsed
value. -/
def specTimeoutLiteral (suiteTimeout : Option PyFloat) (caseElement : Element) :
    Option (Option PyFloat) :=
  match caseElement.getAttr "timeout" with
  | some s => (pyFloat s).map some
  | none => some suiteTimeout

/-- Amended spec wording of timeout resolution: the case attribute wins only
when present and non-empty (matching the code's truthiness guard). -/
def specTimeoutAmended (suiteTimeout : Option PyFloat) (caseElement : Element) :
    Option (Option PyFloat) :=
  match caseElement.getAttr "timeout" with
  | some s => if s ≠ "" then (pyFloat s).map some else some suiteTimeout
  | none => some suiteTimeout

/-- Amended spec wording of the case working-directory override: the
stripped text of the case's working-directory element when that element is
present with non-empty text. -/
def specWorkDirOverride (caseElement : Element) : Option String :=
  match (caseElement.findTag "environment").bind (fun e => e.findTag "working-directory") with
  | some wdEl =>
    match wdEl.text with
    | some t => if t ≠ "" then some (pyStrip t) else none
    | none => none
  | none => none

/-- Every shell-command text run before the suite-teardown section: suite
setup commands, then each case's setup and teardown commands. -/
def preTeardownTexts (root : Element) : List (Option String) :=
  setupCmdTexts root ++
  (match root.findTag "test-cases" with
   | some tcWrapper =>
     (tcWrapper.findallTag "test-case").flatMap
       (fun c => setupCmdTexts c ++ teardownCmdTexts c)
   | none => [])

/-- An empty ambient environment. -/
def ambNone : PyEnv := fun _ => none

/-- A plain suite environment with no variables, directory or timeout. -/
def seBasic : SuiteEnv := ⟨[], none, "S", none⟩

/-- A minimal valid test case: command `prog`, expecting stdout `hi`. -/
def exCase1 : Element :=
  .mk "test-case" [("description", "t1")] none
    [.mk "command" [] (some "prog") [],
     .mk "expect" [] none [.mk "stdout" [] (some "hi") []]]

/-- A minimal valid suite document holding `exCase1`. -/
def exRoot1 : Element :=
  .mk "test-suite" [("description", "S")] none
    [.mk "test-cases" [] none [exCase1]]

/-- A world in which every shell command succeeds and the command under test
prints `hi` and exits 0. -/
def wAllPass : World :=
  ⟨fun _ _ _ => .exited 0 "" "", fun _ _ _ _ _ => .completed "hi" "" 0⟩

/-- A world in which every shell command succeeds and the command under test
prints `hi` but exits 1. -/
def wRc1 : World :=
  ⟨fun _ _ _ => .exited 0 "" "", fun _ _ _ _ _ => .completed "hi" "" 1⟩

/-- A world in which the command under test times out, leaving partial
output behind. -/
def wTimeoutW : World :=
  ⟨fun _ _ _ => .exited 0 "" "", fun _ _ _ _ _ => .timedOut "partialJunk" "partialJunk2"⟩

/-- A world in which the command under test prints the wrong text. -/
def wWrongOut : World :=
  ⟨fun _ _ _ => .exited 0 "" "", fun _ _ _ _ _ => .completed "bye" "oops" 7⟩

/-- A world in which every shell command fails with exit code 3 and stderr
`bad`, while the command under test would succeed. -/
def wShellFail : World :=
  ⟨fun _ _ _ => .exited 3 "" " bad " , fun _ _ _ _ _ => .completed "hi" "" 0⟩

/-- A test case carrying a present-but-empty timeout attribute. -/
def exC6Case : Element :=
  .mk "test-case" [("description", "t6"), ("timeout", "")] none
    [.mk "command" [] (some "prog") [],
     .mk "expect" [] none [.mk "stdout" [] (some "hi") []]]

/-- A suite document that the validator accepts although its environment
block holds an unknown child and its test case holds two command children. -/
def exC1Root : Element :=
  .mk "test-suite" [("description", "S")] none
    [.mk "environment" [] none [.mk "bogus" [] none []],
     .mk "test-cases" [] none
       [.mk "test-case" [("description", "c")] none
         [.mk "command" [] (some "first") [],
          .mk "command" [] (some "second") [],
          .mk "expect" [] none [.mk "stdout" [] (some "hi") []]]]]

/-- A suite document with one suite-level setup command and one case. -/
def exRootSetup : Element :=
  .mk "test-suite" [("description", "S")] none
    [.mk "environment" [] none
      [.mk "setup" [] none [.mk "command" [] (some "boom arg") []]],
     .mk "test-cases" [] none [exCase1]]

/-- A suite document with two suite-level teardown commands and one case. -/
def exRootTd : Element :=
  .mk "test-suite" [("description", "S")] none
    [.mk "environment" [] none
      [.mk "teardown" [] none
        [.mk "command" [] (some "td one") [],
         .mk "command" [] (some "td two") []]],
     .mk "test-cases" [] none [exCase1]]

/-- A test case with one case-level setup and one case-level teardown
command. -/
def exCaseLifecycle : Element :=
  .mk "test-case" [("description", "tl")] none
    [.mk "environment" [] none
      [.mk "setup" [] none [.mk "command" [] (some "cs") []],
       .mk "teardown" [] none [.mk "command" [] (some "ct") []]],
     .mk "command" [] (some "prog") [],
     .mk "expect" [] none [.mk "stdout" [] (some "hi") []]]

/-- The stream-expectation guarantees the validator establishes: no
children, only match/normalize attributes, a valid match mode and only
known normalization keywords. -/
def validatedStreamOK (s : Element) : Prop :=
  s.children = [] ∧
  (∀ p ∈ s.attribs, p.1 ∈ (["match", "normalize"] : List String)) ∧
  (∀ v, s.getAttr "match" = some v → v ∈ (["exact", "contains", "regex"] : List String)) ∧
  (∀ ns, s.getAttr "normalize" = some ns →
    ∀ r ∈ parseRules ns, r ∈ (["ansi", "whitespace"] : List String))

/-- The expect-block guarantees the validator establishes: only known
children, no attributes, non-empty, at most one stdout/stderr/exit_code,
valid streams, integer exit code. -/
def validatedExpectOK (e : Element) : Prop :=
  (∀ c ∈ e.children, c.tag ∈ (["stdout", "stderr", "exit_code"] : List String)) ∧
  e.attribs = [] ∧
  e.children ≠ [] ∧
  (e.findallTag "stdout").length ≤ 1 ∧
  (e.findallTag "stderr").length ≤ 1 ∧
  (e.findallTag "exit_code").length ≤ 1 ∧
  (∀ sEl, e.findTag "stdout" = some sEl → validatedStreamOK sEl) ∧
  (∀ sEl, e.findTag "stderr" = some sEl → validatedStreamOK sEl) ∧
  (∀ xEl, e.findTag "exit_code" = some xEl →
    ∃ t, xEl.text = some t ∧ (pyInt (pyStrip t)).isSome)

/-- The per-case guarantees the validator establishes. Environment blocks
are not inspected, and no upper bound is placed on the number of command,
args, stdin, environment or expect children. -/
def validatedCaseOK (c : Element) : Prop :=
  (∀ ch ∈ c.children,
    ch.tag ∈ (["environment", "command", "args", "stdin", "expect"] : List String)) ∧
  (∀ p ∈ c.attribs, p.1 ∈ (["description", "timeout"] : List String)) ∧
  (∀ s, c.getAttr "timeout" = some s → s ≠ "" → (pyFloat s).isSome) ∧
  (∃ cmd, c.findTag "command" = some cmd ∧ isNonEmptyString cmd.text = true) ∧
  (∀ argsEl, c.findTag "args" = some argsEl →
    argsEl.findallTag "arg" ≠ [] ∧
    ∀ arg ∈ argsEl.findallTag "arg", isNonEmptyString arg.text = true) ∧
  (∃ e, c.findTag "expect" = some e ∧ validatedExpectOK e)

/-- The whole-document guarantees the validator establishes for an accepted
suite. -/
def validatedSuiteOK (root : Element) : Prop :=
  root.tag = "test-suite" ∧
  (∀ c ∈ root.children, c.tag ∈ (["environment", "test-cases"] : List String)) ∧
  (∀ p ∈ root.attribs, p.1 ∈ (["description", "timeout"] : List String)) ∧
  (∀ s, root.getAttr "timeout" = some s → s ≠ "" → (pyFloat s).isSome) ∧
  (∃ tcWrapper, root.findTag "test-cases" = some tcWrapper ∧
    (∀ c ∈ tcWrapper.children, c.tag = "test-case") ∧
    tcWrapper.attribs = [] ∧
    (∀ c ∈ tcWrapper.findallTag "test-case", validatedCaseOK c))

/-! ## Reduction lemmas for the runners -/

theorem runCmdSeq_events_shell (w : World) (texts : List (Option String)) (envVars : PyEnv)
    (workingDir : Option String) :
    ∀ ev ∈ (runCmdSeq w texts envVars workingDir).2, ev.isShell = true := by
  induction texts with
  | nil => intro ev hev; simp [runCmdSeq] at hev
  | cons t rest ih =>
    intro ev hev
    match t with
    | none => simp [runCmdSeq] at hev
    | some s =>
      rw [runCmdSeq] at hev
      cases hr : runCommandInEnv w s envVars workingDir with
      | none => rw [hr] at hev; simp at hev; subst hev; rfl
      | some p =>
        obtain ⟨b, m⟩ := p
        cases b with
        | false => rw [hr] at hev; simp at hev; subst hev; rfl
        | true =>
          rw [hr] at hev
          simp at hev
          rcases hev with hev | hev
          · subst hev; rfl
          · exact ih ev hev

theorem runTestCase_timeout (w : World) (ambient : PyEnv) (caseElement : Element)
    (se : SuiteEnv) (log : List String) (tmo : Option PyFloat) (str : List Event)
    (args : List String) (pOut pErr : String)
    (h1 : resolveTimeout se caseElement = some tmo)
    (h2 : runCmdSeq w (setupCmdTexts caseElement) (resolveEnv ambient se caseElement)
      (resolveWorkDir se caseElement) = (some none, str))
    (h3 : buildArgs caseElement = some args)
    (h4 : w.proc args (resolveEnv ambient se caseElement) (resolveWorkDir se caseElement)
      ((caseElement.findTag "stdin").bind Element.text) tmo = .timedOut pOut pErr) :
    runTestCase w ambient caseElement se log =
      (some ⟨(caseElement.getAttr "description").getD "Unnamed Test Case", se.description,
        false, "Test command timed out",
        [("error_type", "TimeoutExpired"),
         ("details", "Test case exceeded the specified timeout of " ++
           pyReprOptFloat tmo ++ " seconds.")], log⟩,
       str ++ [Event.procE args (resolveEnv ambient se caseElement)
         (resolveWorkDir se caseElement)
         ((caseElement.findTag "stdin").bind Element.text) tmo]) := by
  unfold runTestCase
  simp only [h1, h2, h3, h4]

theorem runTestCase_setup_fail (w : World) (ambient : PyEnv) (caseElement : Element)
    (se : SuiteEnv) (log : List String) (tmo : Option PyFloat) (msg : String)
    (str : List Event)
    (h1 : resolveTimeout se caseElement = some tmo)
    (h2 : runCmdSeq w (setupCmdTexts caseElement) (resolveEnv ambient se caseElement)
      (resolveWorkDir se caseElement) = (some (some msg), str)) :
    runTestCase w ambient caseElement se log =
      (some ⟨(caseElement.getAttr "description").getD "Unnamed Test Case", se.description,
        false, "Test case setup command failed",
        [("error_type", "ConfigurationError"), ("error", msg)], log⟩, str) := by
  unfold runTestCase
  simp only [h1, h2]

theorem runTestCase_not_found (w : World) (ambient : PyEnv) (caseElement : Element)
    (se : SuiteEnv) (log : List String) (tmo : Option PyFloat) (str : List Event)
    (args : List String)
    (h1 : resolveTimeout se caseElement = some tmo)
    (h2 : runCmdSeq w (setupCmdTexts caseElement) (resolveEnv ambient se caseElement)
      (resolveWorkDir se caseElement) = (some none, str))
    (h3 : buildArgs caseElement = some args)
    (h4 : w.proc args (resolveEnv ambient se caseElement) (resolveWorkDir se caseElement)
      ((caseElement.findTag "stdin").bind Element.text) tmo = .notFound) :
    runTestCase w ambient caseElement se log =
      (some ⟨(caseElement.getAttr "description").getD "Unnamed Test Case", se.description,
        false, "Command execution failed",
        [("suggestion", "Ensure <command> '" ++ args.headD "" ++
          "' is a valid executable path.")], log⟩,
       str ++ [Event.procE args (resolveEnv ambient se caseElement)
         (resolveWorkDir se caseElement)
         ((caseElement.findTag "stdin").bind Element.text) tmo]) := by
  unfold runTestCase
  simp only [h1, h2, h3, h4]

theorem runTestCase_proc_failed (w : World) (ambient : PyEnv) (caseElement : Element)
    (se : SuiteEnv) (log : List String) (tmo : Option PyFloat) (str : List Event)
    (args : List String) (excMsg : String)
    (h1 : resolveTimeout se caseElement = some tmo)
    (h2 : runCmdSeq w (setupCmdTexts caseElement) (resolveEnv ambient se caseElement)
      (resolveWorkDir se caseElement) = (some none, str))
    (h3 : buildArgs caseElement = some args)
    (h4 : w.proc args (resolveEnv ambient se caseElement) (resolveWorkDir se caseElement)
      ((caseElement.findTag "stdin").bind Element.text) tmo = .failed excMsg) :
    runTestCase w ambient caseElement se log =
      (some ⟨(caseElement.getAttr "description").getD "Unnamed Test Case", se.description,
        false, "Unexpected error during execution: " ++ excMsg, [], log⟩,
       str ++ [Event.procE args (resolveEnv ambient se caseElement)
         (resolveWorkDir se caseElement)
         ((caseElement.findTag "stdin").bind Element.text) tmo]) := by
  unfold runTestCase
  simp only [h1, h2, h3, h4]

theorem runTestCase_teardown_fail (w : World) (ambient : PyEnv) (caseElement : Element)
    (se : SuiteEnv) (log : List String) (tmo : Option PyFloat) (str ttr : List Event)
    (args : List String) (procOut procErr : String) (returncode : Int) (msg : String)
    (h1 : resolveTimeout se caseElement = some tmo)
    (h2 : runCmdSeq w (setupCmdTexts caseElement) (resolveEnv ambient se caseElement)
      (resolveWorkDir se caseElement) = (some none, str))
    (h3 : buildArgs caseElement = some args)
    (h4 : w.proc args (resolveEnv ambient se caseElement) (resolveWorkDir se caseElement)
      ((caseElement.findTag "stdin").bind Element.text) tmo =
        .completed procOut procErr returncode)
    (h5 : runCmdSeq w (teardownCmdTexts caseElement) (resolveEnv ambient se caseElement)
      (resolveWorkDir se caseElement) = (some (some msg), ttr)) :
    runTestCase w ambient caseElement se log =
      (some ⟨(caseElement.getAttr "description").getD "Unnamed Test Case", se.description,
        false, "Test case teardown command failed",
        [("error_type", "ConfigurationError"), ("error", msg)], log⟩,
       str ++ [Event.procE args (resolveEnv ambient se caseElement)
         (resolveWorkDir se caseElement)
         ((caseElement.findTag "stdin").bind Element.text) tmo] ++ ttr) := by
  unfold runTestCase
  simp only [h1, h2, h3, h4, h5]

theorem runTestCase_completed (w : World) (ambient : PyEnv) (caseElement : Element)
    (se : SuiteEnv) (log : List String) (tmo : Option PyFloat) (str ttr : List Event)
    (args : List String) (procOut procErr : String) (returncode : Int) (expectEl : Element)
    (h1 : resolveTimeout se caseElement = some tmo)
    (h2 : runCmdSeq w (setupCmdTexts caseElement) (resolveEnv ambient se caseElement)
      (resolveWorkDir se caseElement) = (some none, str))
    (h3 : buildArgs caseElement = some args)
    (h4 : w.proc args (resolveEnv ambient se caseElement) (resolveWorkDir se caseElement)
      ((caseElement.findTag "stdin").bind Element.text) tmo =
        .completed procOut procErr returncode)
    (h5 : runCmdSeq w (teardownCmdTexts caseElement) (resolveEnv ambient se caseElement)
      (resolveWorkDir se caseElement) = (some none, ttr))
    (h6 : caseElement.findTag "expect" = some expectEl) :
    runTestCase w ambient caseElement se log =
      (evalExpect expectEl procOut procErr returncode
        ((caseElement.getAttr "description").getD "Unnamed Test Case") se.description log,
       str ++ [Event.procE args (resolveEnv ambient se caseElement)
         (resolveWorkDir se caseElement)
         ((caseElement.findTag "stdin").bind Element.text) tmo] ++ ttr) := by
  unfold runTestCase
  simp only [h1, h2, h3, h4, h5, h6]

theorem evalExpect_stdout_ok (expectEl : Element) (procOut procErr : String)
    (returncode : Int) (description classname : String) (log : List String)
    (hok : ∀ sEl, expectEl.findTag "stdout" = some sEl →
      (compareStreams procOut sEl).passed = true) :
    evalExpect expectEl procOut procErr returncode description classname log =
      evalExpect.evalExpectAfterStdout expectEl procErr returncode description classname log := by
  unfold evalExpect
  cases hs : expectEl.findTag "stdout" with
  | none => simp only
  | some sEl => simp [hok sEl hs]

theorem evalExpect_stderr_ok (expectEl : Element) (procErr : String)
    (returncode : Int) (description classname : String) (log : List String)
    (hok : ∀ sEl, expectEl.findTag "stderr" = some sEl →
      (compareStreams procErr sEl).passed = true) :
    evalExpect.evalExpectAfterStdout expectEl procErr returncode description classname log =
      evalExpect.evalExpectExit expectEl returncode description classname log := by
  unfold evalExpect.evalExpectAfterStdout
  cases hs : expectEl.findTag "stderr" with
  | none => simp only
  | some sEl => simp [hok sEl hs]

theorem evalExpect_stdout_fail (expectEl : Element) (procOut procErr : String)
    (returncode : Int) (description classname : String) (log : List String) (sEl : Element)
    (h : expectEl.findTag "stdout" = some sEl)
    (hc : (compareStreams procOut sEl).passed = false) :
    evalExpect expectEl procOut procErr returncode description classname log =
      some ⟨description, classname, false, "stdout mismatch",
        [("reason", (compareStreams procOut sEl).reason),
         ("expected", (compareStreams procOut sEl).normalizedExpected),
         ("got", (compareStreams procOut sEl).normalizedActual)], log⟩ := by
  unfold evalExpect
  simp [h, hc]

theorem evalExpect_stderr_fail (expectEl : Element) (procErr : String)
    (returncode : Int) (description classname : String) (log : List String) (sEl : Element)
    (h : expectEl.findTag "stderr" = some sEl)
    (hc : (compareStreams procErr sEl).passed = false) :
    evalExpect.evalExpectAfterStdout expectEl procErr returncode description classname log =
      some ⟨description, classname, false, "stderr mismatch",
        [("reason", (compareStreams procErr sEl).reason),
         ("expected", (compareStreams procErr sEl).normalizedExpected),
         ("got", (compareStreams procErr sEl).normalizedActual)], log⟩ := by
  unfold evalExpect.evalExpectAfterStdout
  simp [h, hc]

theorem evalExpectExit_mismatch (expectEl : Element) (returncode : Int)
    (description classname : String) (log : List String) (xEl : Element) (t : String)
    (v : Int)
    (h : expectEl.findTag "exit_code" = some xEl)
    (ht : xEl.text = some t)
    (hv : pyInt (pyStrip t) = some v)
    (hne : returncode ≠ v) :
    evalExpect.evalExpectExit expectEl returncode description classname log =
      some ⟨description, classname, false, "Exit code mismatch",
        [("expected", toString v), ("got", toString returncode)], log⟩ := by
  unfold evalExpect.evalExpectExit
  simp only [h, ht, hv, if_pos hne]

theorem evalExpectExit_match (expectEl : Element) (returncode : Int)
    (description classname : String) (log : List String) (xEl : Element) (t : String)
    (h : expectEl.findTag "exit_code" = some xEl)
    (ht : xEl.text = some t)
    (hv : pyInt (pyStrip t) = some returncode) :
    evalExpect.evalExpectExit expectEl returncode description classname log =
      some ⟨description, classname, true, "", [], log⟩ := by
  unfold evalExpect.evalExpectExit
  simp only [h, ht, hv, ne_eq, not_true_eq_false, if_neg]
  simp

theorem evalExpectExit_absent (expectEl : Element) (returncode : Int)
    (description classname : String) (log : List String)
    (h : expectEl.findTag "exit_code" = none) :
    evalExpect.evalExpectExit expectEl returncode description classname log =
      some ⟨description, classname, true, "", [], log⟩ := by
  unfold evalExpect.evalExpectExit
  simp only [h]

/-! ## Claims -/

/-- C3: for every actual string, expected string and normalization rule set,
`compare_streams` normalizes the actual text unconditionally per the
expectation's rule set, and normalizes the expected text only when the
whitespace rule is a member of the rule set - otherwise (ansi-only, or
regex/contains without whitespace) the expected text is left byte-for-byte
unchanged. -/
theorem c3_normalization_application (actual : String) (el : Element) :
    (compareStreams actual el).normalizedActual =
      normalizeOutput actual (parseRules ((el.getAttr "normalize").getD "")) ∧
    ("whitespace" ∉ parseRules ((el.getAttr "normalize").getD "") →
      (compareStreams actual el).normalizedExpected = (el.text).getD "") ∧
    ("whitespace" ∈ parseRules ((el.getAttr "normalize").getD "") →
      (compareStreams actual el).normalizedExpected =
        normalizeOutput ((el.text).getD "")
          (parseRules ((el.getAttr "normalize").getD ""))) := by
  refine ⟨rfl, ?_, ?_⟩ <;> intro h <;> simp [compareStreams, h]

/-- Witness for C3 at an ansi-only rule set: the expected text is returned
unchanged. -/
theorem c3_normalization_application_witness :
    ("whitespace" ∉ parseRules
      ((Element.getAttr (.mk "stdout" [("normalize", "ansi")] (some " keep  it ") [])
        "normalize").getD "")) ∧
    (compareStreams "x"
      (.mk "stdout" [("normalize", "ansi")] (some " keep  it ") [])).normalizedExpected =
      " keep  it " :=
  ⟨by decide,
   (c3_normalization_application "x"
     (.mk "stdout" [("normalize", "ansi")] (some " keep  it ") [])).2.1 (by decide)⟩

/-- C4: a test case whose command times out yields the Timeout outcome - the
fixed message and the TimeoutExpired diagnostics - and the result is the
same for every partial stdout/stderr the killed process left behind (the
partial streams are never compared against the expectations, whose content
does not appear in the outcome). -/
theorem c4_timeout_outcome (w : World) (ambient : PyEnv) (caseElement : Element)
    (se : SuiteEnv) (log : List String) (tmo : Option PyFloat) (str : List Event)
    (args : List String) (pOut pErr : String)
    (h1 : resolveTimeout se caseElement = some tmo)
    (h2 : runCmdSeq w (setupCmdTexts caseElement) (resolveEnv ambient se caseElement)
      (resolveWorkDir se caseElement) = (some none, str))
    (h3 : buildArgs caseElement = some args)
    (h4 : w.proc args (resolveEnv ambient se caseElement) (resolveWorkDir se caseElement)
      ((caseElement.findTag "stdin").bind Element.text) tmo = .timedOut pOut pErr) :
    runTestCase w ambient caseElement se log =
      (some ⟨(caseElement.getAttr "description").getD "Unnamed Test Case", se.description,
        false, "Test command timed out",
        [("error_type", "TimeoutExpired"),
         ("details", "Test case exceeded the specified timeout of " ++
           pyReprOptFloat tmo ++ " seconds.")], log⟩,
       str ++ [Event.procE args (resolveEnv ambient se caseElement)
         (resolveWorkDir se caseElement)
         ((caseElement.findTag "stdin").bind Element.text) tmo]) :=
  runTestCase_timeout w ambient caseElement se log tmo str args pOut pErr h1 h2 h3 h4

/-- Witness for C4 on a concrete case and a world that times out, leaving
partial output. -/
theorem c4_timeout_outcome_witness :
    resolveTimeout seBasic exCase1 = some none ∧
    runCmdSeq wTimeoutW (setupCmdTexts exCase1) (resolveEnv ambNone seBasic exCase1)
      (resolveWorkDir seBasic exCase1) = (some none, []) ∧
    buildArgs exCase1 = some ["prog"] ∧
    (runTestCase wTimeoutW ambNone exCase1 seBasic []).1 =
      some ⟨"t1", "S", false, "Test command timed out",
        [("error_type", "TimeoutExpired"),
         ("details", "Test case exceeded the specified timeout of None seconds.")], []⟩ := by
  refine ⟨rfl, rfl, rfl, ?_⟩
  rw [c4_timeout_outcome wTimeoutW ambNone exCase1 seBasic [] none [] ["prog"]
    "partialJunk" "partialJunk2" rfl rfl rfl rfl]
  rfl

/-- C2 counterexample: a validated case whose expect block has a stdout
assertion but no exit_code child passes even though the command under test
returned exit code 1 - the exit code is not checked at all, so it does not
default to 0 as the claim states. -/
theorem c2_exit_code_default_counterexample :
    validateSuiteManually exRoot1 = [] ∧
    ((exCase1.findTag "expect").map (fun e => (e.findallTag "exit_code").length)) = some 0 ∧
    wRc1.proc ["prog"] (resolveEnv ambNone seBasic exCase1) none none none =
      .completed "hi" "" 1 ∧
    (runTestCase wRc1 ambNone exCase1 seBasic []).1 =
      some ⟨"t1", "S", true, "", [], []⟩ := by
  exact ⟨by decide, by decide, rfl, by decide⟩

/-- C2 (amended): when the expect block has no exit_code child, the exit
code is not checked: a case whose other assertions pass is a pass for every
returncode - in particular both for a command returning 0 and for one
returning 1. -/
theorem c2_exit_code_default (w : World) (ambient : PyEnv) (caseElement : Element)
    (se : SuiteEnv) (log : List String) (tmo : Option PyFloat) (str ttr : List Event)
    (args : List String) (procOut procErr : String) (returncode : Int) (expectEl : Element)
    (h1 : resolveTimeout se caseElement = some tmo)
    (h2 : runCmdSeq w (setupCmdTexts caseElement) (resolveEnv ambient se caseElement)
      (resolveWorkDir se caseElement) = (some none, str))
    (h3 : buildArgs caseElement = some args)
    (h4 : w.proc args (resolveEnv ambient se caseElement) (resolveWorkDir se caseElement)
      ((caseElement.findTag "stdin").bind Element.text) tmo =
        .completed procOut procErr returncode)
    (h5 : runCmdSeq w (teardownCmdTexts caseElement) (resolveEnv ambient se caseElement)
      (resolveWorkDir se caseElement) = (some none, ttr))
    (h6 : caseElement.findTag "expect" = some expectEl)
    (h7 : expectEl.findTag "exit_code" = none)
    (h8 : ∀ sEl, expectEl.findTag "stdout" = some sEl →
      (compareStreams procOut sEl).passed = true)
    (h9 : ∀ sEl, expectEl.findTag "stderr" = some sEl →
      (compareStreams procErr sEl).passed = true) :
    (runTestCase w ambient caseElement se log).1 =
      some ⟨(caseElement.getAttr "description").getD "Unnamed Test Case",
        se.description, true, "", [], log⟩ := by
  rw [runTestCase_completed w ambient caseElement se log tmo str ttr args procOut procErr
    returncode expectEl h1 h2 h3 h4 h5 h6]
  show evalExpect expectEl procOut procErr returncode _ _ _ = _
  rw [evalExpect_stdout_ok _ _ _ _ _ _ _ h8, evalExpect_stderr_ok _ _ _ _ _ _ h9,
    evalExpectExit_absent _ _ _ _ _ h7]

/-- Witness for C2 (amended) on the concrete case and the exit-code-1 world:
the case passes. -/
theorem c2_exit_code_default_witness :
    (runTestCase wRc1 ambNone exCase1 seBasic []).1 =
      some ⟨"t1", "S", true, "", [], []⟩ := by
  exact c2_exit_code_default wRc1 ambNone exCase1 seBasic [] none [] []
    ["prog"] "hi" "" 1 (.mk "expect" [] none [.mk "stdout" [] (some "hi") []])
    rfl rfl rfl rfl rfl rfl rfl
    (fun sEl h => (Option.some.inj h) ▸ (by decide))
    (fun sEl h => Option.noConfusion h)

/-- C9: the comparator satisfies the specification's examples - exact match
on equal strings, substring containment, regex digit search, and
whitespace-folded exact match with both sides folded - and an expectation
without a match attribute behaves exactly as one with match=exact. -/
theorem c9_compare_examples :
    (compareStreams "abc" (.mk "stdout" [("match", "exact")] (some "abc") [])).passed = true ∧
    (compareStreams "abcdef" (.mk "stdout" [("match", "contains")] (some "cd") [])).passed = true ∧
    (compareStreams "abc123" (.mk "stdout" [("match", "regex")] (some "\\d+") [])).passed = true ∧
    (compareStreams "a   b"
      (.mk "stdout" [("match", "exact"), ("normalize", "whitespace")] (some "a b") [])).passed = true ∧
    (compareStreams "a   b"
      (.mk "stdout" [("match", "exact"), ("normalize", "whitespace")] (some "a b") [])).normalizedActual = "a b" ∧
    (compareStreams "a   b"
      (.mk "stdout" [("match", "exact"), ("normalize", "whitespace")] (some "a b") [])).normalizedExpected = "a b" ∧
    (∀ (actual : String) (el : Element), el.getAttr "match" = none →
      compareStreams actual el =
        compareStreams actual (.mk el.tag (("match", "exact") :: el.attribs) el.text el.children)) := by
  refine ⟨by decide, by decide, by decide, by decide, by decide, by decide, ?_⟩
  intro actual el h
  obtain ⟨tg, ats, tx, ch⟩ := el
  have hm2 : Element.getAttr (.mk tg (("match", "exact") :: ats) tx ch) "match" = some "exact" := by
    simp [Element.getAttr, Element.attribs, List.find?_cons_of_pos]
  have hn2 : Element.getAttr (.mk tg (("match", "exact") :: ats) tx ch) "normalize" =
      Element.getAttr (.mk tg ats tx ch) "normalize" := by
    simp [Element.getAttr, Element.attribs, List.find?_cons_of_neg]
  unfold compareStreams
  simp only [Element.tag, Element.attribs, Element.text, Element.children]
  simp only [h, hm2, hn2]
  rfl

/-- Witness for the default-match conjunct of C9 at a concrete matchless
expectation. -/
theorem c9_compare_examples_witness :
    (Element.getAttr (.mk "stdout" [("normalize", "ansi")] (some "zz") []) "match" = none) ∧
    compareStreams "q" (.mk "stdout" [("normalize", "ansi")] (some "zz") []) =
      compareStreams "q" (.mk "stdout" [("match", "exact"), ("normalize", "ansi")] (some "zz") []) :=
  ⟨by decide,
   c9_compare_examples.2.2.2.2.2.2 "q" (.mk "stdout" [("normalize", "ansi")] (some "zz") [])
     (by decide)⟩

/-- C7: after the command completes (setup and teardown succeeding), the
assertions are evaluated in the fixed order stdout, stderr, exit code, and
the case result comes from the first failing assertion alone: a stdout
mismatch yields the stdout diagnostics whatever the stderr text and exit
code are; with stdout passing, a stderr mismatch yields the stderr
diagnostics whatever the exit code is; with both passing, an exit-code
mismatch yields the exit-code diagnostics; with everything passing the case
passes. -/
theorem c7_assertion_order (w : World) (ambient : PyEnv) (caseElement : Element)
    (se : SuiteEnv) (log : List String) (tmo : Option PyFloat) (str ttr : List Event)
    (args : List String) (procOut procErr : String) (returncode : Int) (expectEl : Element)
    (h1 : resolveTimeout se caseElement = some tmo)
    (h2 : runCmdSeq w (setupCmdTexts caseElement) (resolveEnv ambient se caseElement)
      (resolveWorkDir se caseElement) = (some none, str))
    (h3 : buildArgs caseElement = some args)
    (h4 : w.proc args (resolveEnv ambient se caseElement) (resolveWorkDir se caseElement)
      ((caseElement.findTag "stdin").bind Element.text) tmo =
        .completed procOut procErr returncode)
    (h5 : runCmdSeq w (teardownCmdTexts caseElement) (resolveEnv ambient se caseElement)
      (resolveWorkDir se caseElement) = (some none, ttr))
    (h6 : caseElement.findTag "expect" = some expectEl) :
    (∀ sEl, expectEl.findTag "stdout" = some sEl →
      (compareStreams procOut sEl).passed = false →
      (runTestCase w ambient caseElement se log).1 =
        some ⟨(caseElement.getAttr "description").getD "Unnamed Test Case", se.description,
          false, "stdout mismatch",
          [("reason", (compareStreams procOut sEl).reason),
           ("expected", (compareStreams procOut sEl).normalizedExpected),
           ("got", (compareStreams procOut sEl).normalizedActual)], log⟩) ∧
    ((∀ sEl, expectEl.findTag "stdout" = some sEl →
        (compareStreams procOut sEl).passed = true) →
      ∀ eEl, expectEl.findTag "stderr" = some eEl →
      (compareStreams procErr eEl).passed = false →
      (runTestCase w ambient caseElement se log).1 =
        some ⟨(caseElement.getAttr "description").getD "Unnamed Test Case", se.description,
          false, "stderr mismatch",
          [("reason", (compareStreams procErr eEl).reason),
           ("expected", (compareStreams procErr eEl).normalizedExpected),
           ("got", (compareStreams procErr eEl).normalizedActual)], log⟩) ∧
    ((∀ sEl, expectEl.findTag "stdout" = some sEl →
        (compareStreams procOut sEl).passed = true) →
      (∀ eEl, expectEl.findTag "stderr" = some eEl →
        (compareStreams procErr eEl).passed = true) →
      ∀ xEl t v, expectEl.findTag "exit_code" = some xEl → xEl.text = some t →
        pyInt (pyStrip t) = some v → returncode ≠ v →
      (runTestCase w ambient caseElement se log).1 =
        some ⟨(caseElement.getAttr "description").getD "Unnamed Test Case", se.description,
          false, "Exit code mismatch",
          [("expected", toString v), ("got", toString returncode)], log⟩) ∧
    ((∀ sEl, expectEl.findTag "stdout" = some sEl →
        (compareStreams procOut sEl).passed = true) →
      (∀ eEl, expectEl.findTag "stderr" = some eEl →
        (compareStreams procErr eEl).passed = true) →
      (expectEl.findTag "exit_code" = none ∨
        ∃ xEl t, expectEl.findTag "exit_code" = some xEl ∧ xEl.text = some t ∧
          pyInt (pyStrip t) = some returncode) →
      (runTestCase w ambient caseElement se log).1 =
        some ⟨(caseElement.getAttr "description").getD "Unnamed Test Case", se.description,
          true, "", [], log⟩) := by
  have hbase := runTestCase_completed w ambient caseElement se log tmo str ttr args
    procOut procErr returncode expectEl h1 h2 h3 h4 h5 h6
  refine ⟨?_, ?_, ?_, ?_⟩
  · intro sEl hs hc
    rw [hbase]
    show evalExpect expectEl procOut procErr returncode _ _ _ = _
    rw [evalExpect_stdout_fail _ _ _ _ _ _ _ sEl hs hc]
  · intro hok eEl he hc
    rw [hbase]
    show evalExpect expectEl procOut procErr returncode _ _ _ = _
    rw [evalExpect_stdout_ok _ _ _ _ _ _ _ hok,
      evalExpect_stderr_fail _ _ _ _ _ _ eEl he hc]
  · intro hok1 hok2 xEl t v hx ht hv hne
    rw [hbase]
    show evalExpect expectEl procOut procErr returncode _ _ _ = _
    rw [evalExpect_stdout_ok _ _ _ _ _ _ _ hok1,
      evalExpect_stderr_ok _ _ _ _ _ _ hok2,
      evalExpectExit_mismatch _ _ _ _ _ xEl t v hx ht hv hne]
  · intro hok1 hok2 hexit
    rw [hbase]
    show evalExpect expectEl procOut procErr returncode _ _ _ = _
    rw [evalExpect_stdout_ok _ _ _ _ _ _ _ hok1,
      evalExpect_stderr_ok _ _ _ _ _ _ hok2]
    rcases hexit with hnone | ⟨xEl, t, hx, ht, hv⟩
    · rw [evalExpectExit_absent _ _ _ _ _ hnone]
    · rw [evalExpectExit_match _ _ _ _ _ xEl t hx ht hv]

/-- Witness for C7 on a world whose command prints the wrong stdout: the
stdout diagnostics alone decide the case even though stderr and the exit
code would also mismatch. -/
theorem c7_assertion_order_witness :
    (runTestCase wWrongOut ambNone exCase1 seBasic []).1 =
      some ⟨"t1", "S", false, "stdout mismatch",
        [("reason", "'exact' match failed"), ("expected", "hi"), ("got", "bye")], []⟩ :=
  (c7_assertion_order wWrongOut ambNone exCase1 seBasic [] none [] [] ["prog"]
    "bye" "oops" 7 (.mk "expect" [] none [.mk "stdout" [] (some "hi") []])
    rfl rfl rfl rfl rfl rfl).1
    (.mk "stdout" [] (some "hi") []) rfl (by decide)

/-- C10: case teardown commands run only when the command process was
spawned and completed. On a case-setup failure the trace holds only the
setup shell events; on a timeout or a missing executable the trace ends at
the spawn event (no teardown); after completion the teardown events follow
the spawn event and precede assertion evaluation - a teardown failure
decides the case as a ConfigurationError before any assertion is looked
at. -/
theorem c10_case_teardown_scope (w : World) (ambient : PyEnv) (caseElement : Element)
    (se : SuiteEnv) (log : List String) (tmo : Option PyFloat)
    (h1 : resolveTimeout se caseElement = some tmo) :
    (∀ msg str,
      runCmdSeq w (setupCmdTexts caseElement) (resolveEnv ambient se caseElement)
        (resolveWorkDir se caseElement) = (some (some msg), str) →
      runTestCase w ambient caseElement se log =
        (some ⟨(caseElement.getAttr "description").getD "Unnamed Test Case", se.description,
          false, "Test case setup command failed",
          [("error_type", "ConfigurationError"), ("error", msg)], log⟩, str)) ∧
    (∀ str args pOut pErr,
      runCmdSeq w (setupCmdTexts caseElement) (resolveEnv ambient se caseElement)
        (resolveWorkDir se caseElement) = (some none, str) →
      buildArgs caseElement = some args →
      w.proc args (resolveEnv ambient se caseElement) (resolveWorkDir se caseElement)
        ((caseElement.findTag "stdin").bind Element.text) tmo = .timedOut pOut pErr →
      (runTestCase w ambient caseElement se log).2 =
        str ++ [Event.procE args (resolveEnv ambient se caseElement)
          (resolveWorkDir se caseElement)
          ((caseElement.findTag "stdin").bind Element.text) tmo]) ∧
    (∀ str args,
      runCmdSeq w (setupCmdTexts caseElement) (resolveEnv ambient se caseElement)
        (resolveWorkDir se caseElement) = (some none, str) →
      buildArgs caseElement = some args →
      w.proc args (resolveEnv ambient se caseElement) (resolveWorkDir se caseElement)
        ((caseElement.findTag "stdin").bind Element.text) tmo = .notFound →
      (runTestCase w ambient caseElement se log).2 =
        str ++ [Event.procE args (resolveEnv ambient se caseElement)
          (resolveWorkDir se caseElement)
          ((caseElement.findTag "stdin").bind Element.text) tmo]) ∧
    (∀ str ttr args procOut procErr returncode expectEl,
      runCmdSeq w (setupCmdTexts caseElement) (resolveEnv ambient se caseElement)
        (resolveWorkDir se caseElement) = (some none, str) →
      buildArgs caseElement = some args →
      w.proc args (resolveEnv ambient se caseElement) (resolveWorkDir se caseElement)
        ((caseElement.findTag "stdin").bind Element.text) tmo =
          .completed procOut procErr returncode →
      runCmdSeq w (teardownCmdTexts caseElement) (resolveEnv ambient se caseElement)
        (resolveWorkDir se caseElement) = (some none, ttr) →
      caseElement.findTag "expect" = some expectEl →
      runTestCase w ambient caseElement se log =
        (evalExpect expectEl procOut procErr returncode
          ((caseElement.getAttr "description").getD "Unnamed Test Case") se.description log,
         str ++ [Event.procE args (resolveEnv ambient se caseElement)
           (resolveWorkDir se caseElement)
           ((caseElement.findTag "stdin").bind Element.text) tmo] ++ ttr)) ∧
    (∀ str ttr args procOut procErr returncode msg,
      runCmdSeq w (setupCmdTexts caseElement) (resolveEnv ambient se caseElement)
        (resolveWorkDir se caseElement) = (some none, str) →
      buildArgs caseElement = some args →
      w.proc args (resolveEnv ambient se caseElement) (resolveWorkDir se caseElement)
        ((caseElement.findTag "stdin").bind Element.text) tmo =
          .completed procOut procErr returncode →
      runCmdSeq w (teardownCmdTexts caseElement) (resolveEnv ambient se caseElement)
        (resolveWorkDir se caseElement) = (some (some msg), ttr) →
      runTestCase w ambient caseElement se log =
        (some ⟨(caseElement.getAttr "description").getD "Unnamed Test Case", se.description,
          false, "Test case teardown command failed",
          [("error_type", "ConfigurationError"), ("error", msg)], log⟩,
         str ++ [Event.procE args (resolveEnv ambient se caseElement)
           (resolveWorkDir se caseElement)
           ((caseElement.findTag "stdin").bind Element.text) tmo] ++ ttr)) := by
  refine ⟨?_, ?_, ?_, ?_, ?_⟩
  · intro msg str h2
    exact runTestCase_setup_fail w ambient caseElement se log tmo msg str h1 h2
  · intro str args pOut pErr h2 h3 h4
    rw [runTestCase_timeout w ambient caseElement se log tmo str args pOut pErr h1 h2 h3 h4]
  · intro str args h2 h3 h4
    rw [runTestCase_not_found w ambient caseElement se log tmo str args h1 h2 h3 h4]
  · intro str ttr args procOut procErr returncode expectEl h2 h3 h4 h5 h6
    exact runTestCase_completed w ambient caseElement se log tmo str ttr args procOut
      procErr returncode expectEl h1 h2 h3 h4 h5 h6
  · intro str ttr args procOut procErr returncode msg h2 h3 h4 h5
    exact runTestCase_teardown_fail w ambient caseElement se log tmo str ttr args procOut
      procErr returncode msg h1 h2 h3 h4 h5

/-- Witness for C10 on a case with one setup and one teardown command, in a
world whose command times out: the trace holds the setup shell event and
the spawn event only - the teardown command is never run. -/
theorem c10_case_teardown_scope_witness :
    (runTestCase wTimeoutW ambNone exCaseLifecycle seBasic []).2 =
      [Event.shellE "cs" (resolveEnv ambNone seBasic exCaseLifecycle)
        (resolveWorkDir seBasic exCaseLifecycle)] ++
      [Event.procE ["prog"] (resolveEnv ambNone seBasic exCaseLifecycle)
        (resolveWorkDir seBasic exCaseLifecycle)
        ((exCaseLifecycle.findTag "stdin").bind Element.text) none] :=
  (c10_case_teardown_scope wTimeoutW ambNone exCaseLifecycle seBasic [] none rfl).2.1
    [Event.shellE "cs" (resolveEnv ambNone seBasic exCaseLifecycle)
      (resolveWorkDir seBasic exCaseLifecycle)]
    ["prog"] "partialJunk" "partialJunk2" rfl rfl rfl

theorem string_append_ne_empty (s t : String) (hs : s.data ≠ []) : s ++ t ≠ "" := by
  intro hEq
  apply hs
  have hd : (s ++ t).data = ("" : String).data := by rw [hEq]
  rw [String.data_append] at hd
  exact (List.append_eq_nil.mp hd).1

/-- C5: a failing suite-level setup command short-circuits the suite - the
result carries only the non-empty error, no case result exists, no process
beyond the setup shell commands is spawned and suite teardown is not run;
and every suite result satisfies the invariant that a non-empty error comes
with an empty case-result sequence. -/
theorem c5_setup_failure_short_circuit :
    (∀ (w : World) (ambient : PyEnv) (suitePath : String) (root : Element) (verbose : Bool)
       (stmo : Option PyFloat) (msg : String) (str : List Event),
      suiteTimeoutResolved root = some stmo →
      runCmdSeq w (setupCmdTexts root) (applyVars ambient (variableElems root))
        (suiteWorkDir root) = (some (some msg), str) →
      runSuite w ambient suitePath root verbose =
        (some ⟨(root.getAttr "description").getD suitePath, suitePath, [],
          "Suite setup failed: " ++ msg⟩, str) ∧
      ("Suite setup failed: " ++ msg) ≠ "" ∧
      (∀ ev ∈ str, ev.isShell = true)) ∧
    (∀ (w : World) (ambient : PyEnv) (suitePath : String) (root : Element) (verbose : Bool)
       (r : PySuiteResult),
      (runSuite w ambient suitePath root verbose).1 = some r →
      r.error = "" ∨ (r.error ≠ "" ∧ r.test_cases = [])) := by
  constructor
  · intro w ambient suitePath root verbose stmo msg str h1 h2
    refine ⟨?_, string_append_ne_empty _ _ (by decide), ?_⟩
    · unfold runSuite
      simp only [h1, h2]
    · have := runCmdSeq_events_shell w (setupCmdTexts root)
        (applyVars ambient (variableElems root)) (suiteWorkDir root)
      rw [h2] at this
      exact this
  · intro w ambient suitePath root verbose r h
    unfold runSuite at h
    dsimp only at h
    rcases hto : suiteTimeoutResolved root with _ | stmo <;> rw [hto] at h
    · exact Option.noConfusion h
    · rcases hsu : runCmdSeq w (setupCmdTexts root) (applyVars ambient (variableElems root))
        (suiteWorkDir root) with ⟨o, tr⟩
      rw [hsu] at h
      cases o with
      | none => exact Option.noConfusion h
      | some oo =>
        cases oo with
        | some msg =>
          obtain rfl := Option.some.inj h
          exact Or.inr ⟨string_append_ne_empty _ _ (by decide), rfl⟩
        | none =>
          dsimp only at h
          rcases hfind : root.findTag "test-cases" with _ | tcW <;> rw [hfind] at h
          · exact Option.noConfusion h
          · dsimp only at h
            rcases hrc : runCases w ambient
              ⟨variableElems root, suiteWorkDir root,
               (root.getAttr "description").getD suitePath, stmo⟩ verbose
              (tcW.findallTag "test-case") with ⟨oc, tr2⟩
            rw [hrc] at h
            cases oc with
            | none => exact Option.noConfusion h
            | some results =>
              dsimp only at h
              rcases htd : runCmdSeqDiscard w (teardownCmdTexts root)
                (applyVars ambient (variableElems root)) (suiteWorkDir root) with ⟨od, tr3⟩
              rw [htd] at h
              cases od with
              | none => exact Option.noConfusion h
              | some u =>
                obtain rfl := Option.some.inj h
                exact Or.inl rfl

/-- Witness for C5 on a suite whose only setup command exits 3: the suite
result carries the error alone and no case event appears. -/
theorem c5_setup_failure_short_circuit_witness :
    runSuite wShellFail ambNone "p.xml" exRootSetup false =
      (some ⟨"S", "p.xml", [],
        "Suite setup failed: Command 'boom arg' failed with exit code 3:\nbad"⟩,
       [Event.shellE "boom arg" (applyVars ambNone (variableElems exRootSetup))
         (suiteWorkDir exRootSetup)]) :=
  (c5_setup_failure_short_circuit.1 wShellFail ambNone "p.xml" exRootSetup false none
    "Command 'boom arg' failed with exit code 3:\nbad"
    [Event.shellE "boom arg" (applyVars ambNone (variableElems exRootSetup))
      (suiteWorkDir exRootSetup)]
    rfl rfl).1

theorem runCmdSeq_congr (w w' : World) (texts : List (Option String)) (envVars : PyEnv)
    (workingDir : Option String)
    (hsh : ∀ t, some t ∈ texts →
      w'.shell t envVars workingDir = w.shell t envVars workingDir) :
    runCmdSeq w' texts envVars workingDir = runCmdSeq w texts envVars workingDir := by
  induction texts with
  | nil => rfl
  | cons t rest ih =>
    cases t with
    | none => rfl
    | some s =>
      have hc : runCommandInEnv w' s envVars workingDir =
          runCommandInEnv w s envVars workingDir := by
        unfold runCommandInEnv
        rw [hsh s (by simp)]
      have ih2 := ih (fun t ht => hsh t (List.mem_cons_of_mem _ ht))
      simp only [runCmdSeq, hc, ih2]

theorem runCmdSeqDiscard_events (w : World) (envVars : PyEnv) (workingDir : Option String)
    (tds : List String)
    (hall : ∀ t ∈ tds, (runCommandInEnv w t envVars workingDir).isSome) :
    runCmdSeqDiscard w (tds.map some) envVars workingDir =
      (some (), tds.map (fun t => Event.shellE t envVars workingDir)) := by
  induction tds with
  | nil => rfl
  | cons t rest ih =>
    have ht := hall t (by simp)
    rcases hr : runCommandInEnv w t envVars workingDir with _ | v
    · rw [hr] at ht; simp at ht
    · simp only [List.map_cons, runCmdSeqDiscard, hr]
      rw [ih (fun x hx => hall x (by simp [hx]))]

theorem runTestCase_congr (w w' : World) (ambient : PyEnv) (caseElement : Element)
    (se : SuiteEnv) (log : List String)
    (hproc : w'.proc = w.proc)
    (hsh : ∀ t, some t ∈ setupCmdTexts caseElement ++ teardownCmdTexts caseElement →
      ∀ envVars workingDir, w'.shell t envVars workingDir = w.shell t envVars workingDir) :
    runTestCase w' ambient caseElement se log = runTestCase w ambient caseElement se log := by
  have hs : runCmdSeq w' (setupCmdTexts caseElement) (resolveEnv ambient se caseElement)
      (resolveWorkDir se caseElement) =
      runCmdSeq w (setupCmdTexts caseElement) (resolveEnv ambient se caseElement)
      (resolveWorkDir se caseElement) :=
    runCmdSeq_congr w w' _ _ _
      (fun t ht => hsh t (List.mem_append_left _ ht) _ _)
  have htd : runCmdSeq w' (teardownCmdTexts caseElement) (resolveEnv ambient se caseElement)
      (resolveWorkDir se caseElement) =
      runCmdSeq w (teardownCmdTexts caseElement) (resolveEnv ambient se caseElement)
      (resolveWorkDir se caseElement) :=
    runCmdSeq_congr w w' _ _ _
      (fun t ht => hsh t (List.mem_append_right _ ht) _ _)
  unfold runTestCase
  dsimp only
  rw [hs, htd, hproc]

theorem runCases_congr (w w' : World) (ambient : PyEnv) (se : SuiteEnv) (verbose : Bool)
    (caseElems : List Element)
    (hproc : w'.proc = w.proc)
    (hsh : ∀ t,
      some t ∈ caseElems.flatMap (fun c => setupCmdTexts c ++ teardownCmdTexts c) →
      ∀ envVars workingDir, w'.shell t envVars workingDir = w.shell t envVars workingDir) :
    runCases w' ambient se verbose caseElems = runCases w ambient se verbose caseElems := by
  induction caseElems with
  | nil => rfl
  | cons c rest ih =>
    have h1 := runTestCase_congr w w' ambient c se
      (if verbose then
        ["# Executing case: " ++ ((c.getAttr "description").getD "Unnamed Test Case")]
       else []) hproc
      (fun t ht envVars workingDir =>
        hsh t (by rw [List.flatMap_cons]; exact List.mem_append_left _ ht) envVars workingDir)
    have ih2 := ih (fun t ht envVars workingDir =>
      hsh t (by rw [List.flatMap_cons]; exact List.mem_append_right _ ht) envVars workingDir)
    simp only [runCases, h1, ih2]

/-- C8: once suite setup has succeeded, the suite-teardown commands are run
exactly once each, in order, after every case's events - with no assumption
on case outcomes, so in particular even when every case fails - and the
suite's result (its cases and verdict, hence pass/fail) is unchanged by
anything the teardown commands do: two worlds that agree on the command
under test and on every shell command run before teardown produce the same
suite result. -/
theorem c8_suite_teardown :
    (∀ (w : World) (ambient : PyEnv) (suitePath : String) (root : Element) (verbose : Bool)
       (stmo : Option PyFloat) (str ctr : List Event) (tcWrapper : Element)
       (results : List TestCaseResult) (tds : List String),
      suiteTimeoutResolved root = some stmo →
      runCmdSeq w (setupCmdTexts root) (applyVars ambient (variableElems root))
        (suiteWorkDir root) = (some none, str) →
      root.findTag "test-cases" = some tcWrapper →
      runCases w ambient
        ⟨variableElems root, suiteWorkDir root,
         (root.getAttr "description").getD suitePath, stmo⟩ verbose
        (tcWrapper.findallTag "test-case") = (some results, ctr) →
      teardownCmdTexts root = tds.map some →
      (∀ t ∈ tds, (runCommandInEnv w t (applyVars ambient (variableElems root))
        (suiteWorkDir root)).isSome) →
      runSuite w ambient suitePath root verbose =
        (some ⟨(root.getAttr "description").getD suitePath, suitePath, results, ""⟩,
         str ++ ctr ++ tds.map (fun t => Event.shellE t
           (applyVars ambient (variableElems root)) (suiteWorkDir root)))) ∧
    (∀ (w w' : World) (ambient : PyEnv) (suitePath : String) (root : Element) (verbose : Bool)
       (r r' : PySuiteResult),
      w'.proc = w.proc →
      (∀ t, some t ∈ preTeardownTexts root →
        ∀ envVars workingDir, w'.shell t envVars workingDir = w.shell t envVars workingDir) →
      (runSuite w ambient suitePath root verbose).1 = some r →
      (runSuite w' ambient suitePath root verbose).1 = some r' →
      r = r') := by
  constructor
  · intro w ambient suitePath root verbose stmo str ctr tcWrapper results tds
      h1 h2 h3 h4 h5 h6
    unfold runSuite
    simp only [h1, h2, h3, h4, h5, runCmdSeqDiscard_events w _ _ tds h6]
  · intro w w' ambient suitePath root verbose r r' hproc hsh hr hr'
    have hsetup : runCmdSeq w' (setupCmdTexts root) (applyVars ambient (variableElems root))
        (suiteWorkDir root) =
        runCmdSeq w (setupCmdTexts root) (applyVars ambient (variableElems root))
        (suiteWorkDir root) :=
      runCmdSeq_congr w w' _ _ _ (fun t ht => hsh t
        (by unfold preTeardownTexts; exact List.mem_append_left _ ht) _ _)
    unfold runSuite at hr hr'
    dsimp only at hr hr'
    rw [hsetup] at hr'
    rcases hto : suiteTimeoutResolved root with _ | stmo <;> rw [hto] at hr hr'
    · exact Option.noConfusion hr
    · rcases hsu : runCmdSeq w (setupCmdTexts root) (applyVars ambient (variableElems root))
        (suiteWorkDir root) with ⟨o, tr⟩
      rw [hsu] at hr hr'
      cases o with
      | none => exact Option.noConfusion hr
      | some oo =>
        cases oo with
        | some msg =>
          obtain rfl := Option.some.inj hr
          obtain rfl := Option.some.inj hr'
          rfl
        | none =>
          dsimp only at hr hr'
          rcases hfind : root.findTag "test-cases" with _ | tcW <;> rw [hfind] at hr hr'
          · exact Option.noConfusion hr
          · dsimp only at hr hr'
            have hcases : runCases w' ambient
                ⟨variableElems root, suiteWorkDir root,
                 (root.getAttr "description").getD suitePath, stmo⟩ verbose
                (tcW.findallTag "test-case") =
                runCases w ambient
                ⟨variableElems root, suiteWorkDir root,
                 (root.getAttr "description").getD suitePath, stmo⟩ verbose
                (tcW.findallTag "test-case") :=
              runCases_congr w w' ambient _ verbose _ hproc (fun t ht => hsh t
                (by unfold preTeardownTexts; rw [hfind]; exact List.mem_append_right _ ht))
            rw [hcases] at hr'
            rcases hrc : runCases w ambient
                ⟨variableElems root, suiteWorkDir root,
                 (root.getAttr "description").getD suitePath, stmo⟩ verbose
                (tcW.findallTag "test-case") with ⟨oc, tr2⟩
            rw [hrc] at hr hr'
            cases oc with
            | none => exact Option.noConfusion hr
            | some results =>
              dsimp only at hr hr'
              rcases htd : runCmdSeqDiscard w (teardownCmdTexts root)
                (applyVars ambient (variableElems root)) (suiteWorkDir root) with ⟨od, tr3⟩
              rcases htd' : runCmdSeqDiscard w' (teardownCmdTexts root)
                (applyVars ambient (variableElems root)) (suiteWorkDir root) with ⟨od', tr3'⟩
              rw [htd] at hr
              rw [htd'] at hr'
              cases od with
              | none => exact Option.noConfusion hr
              | some u =>
                cases od' with
                | none => exact Option.noConfusion hr'
                | some u' =>
                  obtain rfl := Option.some.inj hr
                  obtain rfl := Option.some.inj hr'
                  rfl

/-- Witness for C8 on a suite with two teardown commands and a world whose
single case fails on stdout: the teardown events still follow the case's
spawn event, once each, in order. -/
theorem c8_suite_teardown_witness :
    runSuite wWrongOut ambNone "p.xml" exRootTd false =
      (some ⟨"S", "p.xml",
        [⟨"t1", "S", false, "stdout mismatch",
          [("reason", "'exact' match failed"), ("expected", "hi"), ("got", "bye")], []⟩],
        ""⟩,
       [Event.procE ["prog"]
          (resolveEnv ambNone
            ⟨variableElems exRootTd, suiteWorkDir exRootTd, "S", none⟩ exCase1)
          (resolveWorkDir
            ⟨variableElems exRootTd, suiteWorkDir exRootTd, "S", none⟩ exCase1)
          ((exCase1.findTag "stdin").bind Element.text) none] ++
        [Event.shellE "td one" (applyVars ambNone (variableElems exRootTd))
           (suiteWorkDir exRootTd),
         Event.shellE "td two" (applyVars ambNone (variableElems exRootTd))
           (suiteWorkDir exRootTd)]) := by
  have h := c8_suite_teardown.1 wWrongOut ambNone "p.xml" exRootTd false none
    [] [Event.procE ["prog"]
          (resolveEnv ambNone
            ⟨variableElems exRootTd, suiteWorkDir exRootTd, "S", none⟩ exCase1)
          (resolveWorkDir
            ⟨variableElems exRootTd, suiteWorkDir exRootTd, "S", none⟩ exCase1)
          ((exCase1.findTag "stdin").bind Element.text) none]
    (.mk "test-cases" [] none [exCase1])
    [⟨"t1", "S", false, "stdout mismatch",
      [("reason", "'exact' match failed"), ("expected", "hi"), ("got", "bye")], []⟩]
    ["td one", "td two"] rfl rfl rfl rfl rfl (by decide)
  exact h

theorem applyVars_lookup (varEls : List Element) (base : PyEnv) (k : String) :
    applyVars base varEls k = (lookupVarLast varEls k).or (base k) := by
  induction varEls generalizing base with
  | nil => simp [applyVars, lookupVarLast]
  | cons v rest ih =>
    unfold applyVars lookupVarLast
    rcases hn : v.getAttr "name" with _ | n <;> dsimp only
    · rw [ih]
      simp
    · rw [ih]
      rcases hlast : lookupVarLast rest k with _ | val
      · simp only [Option.none_or]
        unfold envSet
        by_cases hk : k = n
        · subst hk
          simp
        · simp [hk, Ne.symm hk]
      · simp

/-- C6 counterexample: a test case with a present-but-empty timeout
attribute, which validation accepts, resolves to the suite's timeout -
whereas the claim's wording ("the case's if the case attribute is present")
selects the case's (unparseable) value. -/
theorem c6_environment_resolution_counterexample :
    exC6Case.getAttr "timeout" = some "" ∧
    validateTestCase exC6Case = [] ∧
    resolveTimeout ⟨[], none, "S", some ⟨5, 0⟩⟩ exC6Case = some (some ⟨5, 0⟩) ∧
    specTimeoutLiteral (some ⟨5, 0⟩) exC6Case = none ∧
    resolveTimeout ⟨[], none, "S", some ⟨5, 0⟩⟩ exC6Case ≠
      specTimeoutLiteral (some ⟨5, 0⟩) exC6Case := by
  refine ⟨by decide, by decide, by decide, by decide, by decide⟩

/-- C6 (amended): the effective environment is the ambient environment
overlaid by the suite variables then the case variables (case wins on a
collision; a case omitting a variable sees the suite value; within one
block the last write to a name wins); the working directory is the case's
when its element is present with non-empty text, else the suite's; the
timeout is the case's when its attribute is present AND non-empty, else the
suite's when present and non-empty, else unset. -/
theorem c6_environment_resolution :
    (∀ (ambient : PyEnv) (se : SuiteEnv) (caseElement : Element) (k : String),
      resolveEnv ambient se caseElement k =
        ((lookupVarLast (variableElems caseElement) k).or
          ((lookupVarLast se.suiteVars k).or (ambient k)))) ∧
    (∀ (se : SuiteEnv) (caseElement : Element),
      resolveWorkDir se caseElement =
        (specWorkDirOverride caseElement).or se.working_dir) ∧
    (∀ (se : SuiteEnv) (caseElement : Element),
      resolveTimeout se caseElement = specTimeoutAmended se.timeout caseElement) ∧
    (∀ root : Element,
      suiteTimeoutResolved root = specTimeoutAmended none root) := by
  refine ⟨?_, ?_, ?_, ?_⟩
  · intro ambient se caseElement k
    unfold resolveEnv
    rw [applyVars_lookup, applyVars_lookup]
  · intro se caseElement
    unfold resolveWorkDir specWorkDirOverride
    rcases he : (caseElement.findTag "environment").bind
      (fun e => e.findTag "working-directory") with _ | wdEl <;> dsimp only
    · simp
    · rcases htx : wdEl.text with _ | t <;> dsimp only
      · simp
      · by_cases ht : t = "" <;> simp [ht]
  · intro se caseElement
    unfold resolveTimeout specTimeoutAmended
    rcases ha : caseElement.getAttr "timeout" with _ | s <;> dsimp only
    by_cases hs : s = "" <;> simp [hs]
  · intro root
    unfold suiteTimeoutResolved specTimeoutAmended
    rcases ha : root.getAttr "timeout" with _ | s <;> dsimp only
    by_cases hs : s = "" <;> simp [hs]

theorem sortedInsert_ne_nil (x : String) (l : List String) : sortedInsert x l ≠ [] := by
  cases l <;> simp [sortedInsert]
  split <;> simp

theorem pySorted_eq_nil {l : List String} (h : pySorted l = []) : l = [] := by
  cases l with
  | nil => rfl
  | cons x xs => exact absurd h (sortedInsert_ne_nil x (pySorted xs))

theorem listUniq_eq_nil {l : List String} (h : listUniq l = []) : l = [] := by
  induction l with
  | nil => rfl
  | cons x xs ih =>
    unfold listUniq at h
    split at h
    · rename_i hmem
      rw [ih h] at hmem
      simp at hmem
    · simp at h

theorem pySortedSet_eq_nil {l : List String} (h : pySortedSet l = []) : l = [] :=
  listUniq_eq_nil (pySorted_eq_nil h)

theorem if_msgs_eq_nil {c : Prop} [Decidable c] {msgs : List String}
    (h : (if c then msgs else []) = []) (hne : msgs ≠ []) : ¬ c := by
  intro hc
  rw [if_pos hc] at h
  exact hne h

theorem validateElement_nil {el : Element} {kc ka : List String}
    (h : validateElement el kc ka = []) :
    (∀ c ∈ el.children, c.tag ∈ kc) ∧ (∀ p ∈ el.attribs, p.1 ∈ ka) := by
  unfold validateElement at h
  dsimp only at h
  obtain ⟨h1, h2⟩ := List.append_eq_nil.mp h
  have hc := if_msgs_eq_nil h1 (by simp)
  have ha := if_msgs_eq_nil h2 (by simp)
  simp only [ne_eq, not_not] at hc ha
  have hcf := List.filter_eq_nil_iff.mp (pySortedSet_eq_nil hc)
  have haf := List.filter_eq_nil_iff.mp (pySortedSet_eq_nil ha)
  constructor
  · intro c hm
    have := hcf c.tag (List.mem_map_of_mem Element.tag hm)
    simpa using this
  · intro p hm
    have := haf p.1 (List.mem_map_of_mem Prod.fst hm)
    simpa using this

theorem validateStream_nil {s : Element} (h : validateStream s = []) :
    validatedStreamOK s := by
  unfold validateStream at h
  obtain ⟨h12, h3⟩ := List.append_eq_nil.mp h
  obtain ⟨h1, h2⟩ := List.append_eq_nil.mp h12
  obtain ⟨hch, hat⟩ := validateElement_nil h1
  refine ⟨?_, hat, ?_, ?_⟩
  · rw [List.eq_nil_iff_forall_not_mem]
    intro c hc
    simpa using hch c hc
  · intro v hv
    rw [hv] at h2
    by_contra hmem
    simp [hmem] at h2
  · intro ns hns
    rw [hns] at h3
    dsimp only at h3
    have := if_msgs_eq_nil h3 (by simp)
    simp only [ne_eq, not_not] at this
    have hf := List.filter_eq_nil_iff.mp (pySortedSet_eq_nil this)
    intro r hr
    have himp : ¬ r = "ansi" → r = "whitespace" := by simpa using hf r hr
    simp only [List.mem_cons, List.mem_singleton, List.not_mem_nil, or_false]
    exact or_iff_not_imp_left.mpr himp

theorem exitCodeErrors_nil {x : Element} (h : exitCodeErrors x = []) :
    ∃ t, x.text = some t ∧ (pyInt (pyStrip t)).isSome := by
  unfold exitCodeErrors at h
  rcases ht : x.text with _ | t <;> rw [ht] at h
  · simp at h
  · refine ⟨t, rfl, ?_⟩
    dsimp only at h
    by_contra hnone
    rw [if_pos (by simpa using hnone)] at h
    simp at h

theorem validateExpect_nil {e : Element} (h : validateExpect e = []) :
    validatedExpectOK e := by
  unfold validateExpect at h
  obtain ⟨hp5, h6⟩ := List.append_eq_nil.mp h
  obtain ⟨hp4, h5⟩ := List.append_eq_nil.mp hp5
  obtain ⟨hp3, h4⟩ := List.append_eq_nil.mp hp4
  obtain ⟨hp2, h3⟩ := List.append_eq_nil.mp hp3
  obtain ⟨h1, h2⟩ := List.append_eq_nil.mp hp2
  obtain ⟨hch, hat⟩ := validateElement_nil h1
  simp only [List.flatMap_cons, List.flatMap_nil, List.append_nil] at h3
  obtain ⟨h3a, h3br⟩ := List.append_eq_nil.mp h3
  obtain ⟨h3b, h3c⟩ := List.append_eq_nil.mp h3br
  refine ⟨hch, ?_, ?_, ?_, ?_, ?_, ?_, ?_, ?_⟩
  · rw [List.eq_nil_iff_forall_not_mem]
    intro p hp
    have := hat p hp
    simp at this
  · intro hempty
    rw [if_pos (by simp [hempty])] at h2
    simp at h2
  · have := if_msgs_eq_nil h3a (by simp)
    omega
  · have := if_msgs_eq_nil h3b (by simp)
    omega
  · have := if_msgs_eq_nil h3c (by simp)
    omega
  · intro sEl hs
    rw [hs] at h4
    exact validateStream_nil h4
  · intro sEl hs
    rw [hs] at h5
    exact validateStream_nil h5
  · intro xEl hx
    rw [hx] at h6
    exact exitCodeErrors_nil h6

theorem timeoutAttrErrors_nil {el : Element} {ownerTag : String}
    (h : timeoutAttrErrors el ownerTag = []) :
    ∀ s, el.getAttr "timeout" = some s → s ≠ "" → (pyFloat s).isSome := by
  intro s hs hne
  unfold timeoutAttrErrors at h
  rw [hs] at h
  dsimp only at h
  rw [if_neg hne] at h
  by_contra hnone
  rw [if_pos (by simpa using hnone)] at h
  simp at h

theorem validateTestCase_nil {c : Element} (h : validateTestCase c = []) :
    validatedCaseOK c := by
  unfold validateTestCase at h
  obtain ⟨hp4, h5⟩ := List.append_eq_nil.mp h
  obtain ⟨hp3, h4⟩ := List.append_eq_nil.mp hp4
  obtain ⟨hp2, h3⟩ := List.append_eq_nil.mp hp3
  obtain ⟨h1, h2⟩ := List.append_eq_nil.mp hp2
  obtain ⟨hch, hat⟩ := validateElement_nil h1
  refine ⟨hch, hat, timeoutAttrErrors_nil h2, ?_, ?_, ?_⟩
  · rcases hcmd : c.findTag "command" with _ | cmd <;> rw [hcmd] at h3
    · simp at h3
    · refine ⟨cmd, rfl, ?_⟩
      by_contra hne
      simp [hne] at h3
  · intro argsEl hargs
    rw [hargs] at h4
    obtain ⟨h4a, h4b⟩ := List.append_eq_nil.mp h4
    constructor
    · intro hnil
      rw [if_pos (by simp [hnil])] at h4a
      simp at h4a
    · intro arg harg
      by_contra hne
      have hone := List.flatMap_eq_nil_iff.mp h4b arg harg
      simp [hne] at hone
  · rcases hexp : c.findTag "expect" with _ | e <;> rw [hexp] at h5
    · simp at h5
    · exact ⟨e, rfl, validateExpect_nil h5⟩

theorem casesErrors_nil {caseList : List Element} :
    ∀ i, casesErrors i caseList = [] →
    ∀ c ∈ caseList, validateTestCase c = [] := by
  induction caseList with
  | nil => intro i _ c hc; simp at hc
  | cons c0 rest ih =>
    intro i h c hc
    unfold casesErrors at h
    dsimp only at h
    obtain ⟨h1, h2⟩ := List.append_eq_nil.mp h
    rcases List.mem_cons.mp hc with hceq | hcm
    · subst hceq
      have := if_msgs_eq_nil h1 (by simp)
      simpa using this
    · exact ih (i + 1) h2 c hcm

/-- C1 counterexample: a suite document accepted by validation (empty error
list) whose environment block contains the unknown child element bogus and
whose test case contains two command children - violating the claimed
no-unknown-child-anywhere and exactly-one-command guarantees without being
rejected. -/
theorem c1_validator_coverage_counterexample :
    validateSuiteManually exC1Root = [] ∧
    ((exC1Root.findTag "environment").map (fun e => e.children.map Element.tag)) =
      some ["bogus"] ∧
    ((exC1Root.findTag "test-cases").map
      (fun w0 => (w0.findallTag "test-case").map
        (fun c => (c.findallTag "command").length))) = some [2] := by
  refine ⟨by decide, by decide, by decide⟩

/-- C1 (amended): a document accepted by validation satisfies every rule
the validator checks: the root is test-suite with only known children and
attributes and a parseable non-empty timeout; a test-cases wrapper exists
whose children are all test-case with no attributes; every test case has
only known children and attributes, a parseable non-empty timeout, a
command child with non-empty text, non-empty args when present, and an
expect child that is non-empty with only known children, no attributes, at
most one stdout/stderr/exit_code, valid match/normalize values and an
integer exit code. The validator does not inspect environment blocks and
bounds no child count from above besides the three inside expect. -/
theorem c1_validator_coverage (root : Element)
    (h : validateSuiteManually root = []) : validatedSuiteOK root := by
  unfold validateSuiteManually at h
  by_cases htag : root.tag ≠ "test-suite"
  · rw [if_pos htag] at h
    simp at h
  · rw [if_neg htag] at h
    simp only [ne_eq, not_not] at htag
    obtain ⟨hp2, h3⟩ := List.append_eq_nil.mp h
    obtain ⟨h1, h2⟩ := List.append_eq_nil.mp hp2
    obtain ⟨hch, hat⟩ := validateElement_nil h1
    refine ⟨htag, hch, hat, timeoutAttrErrors_nil h2, ?_⟩
    rcases hf : root.findTag "test-cases" with _ | tcWrapper <;> rw [hf] at h3
    · simp at h3
    · obtain ⟨h3a, h3b⟩ := List.append_eq_nil.mp h3
      obtain ⟨hwch, hwat⟩ := validateElement_nil h3a
      refine ⟨tcWrapper, rfl, ?_, ?_, ?_⟩
      · intro c hc
        have := hwch c hc
        simpa using this
      · rw [List.eq_nil_iff_forall_not_mem]
        intro p hp
        have := hwat p hp
        simp at this
      · intro c hc
        exact validateTestCase_nil (casesErrors_nil 0 h3b c hc)

/-- Witness for C1 (amended) on a concrete accepted suite document. -/
theorem c1_validator_coverage_witness :
    validateSuiteManually exRoot1 = [] ∧ validatedSuiteOK exRoot1 :=
  ⟨by decide, c1_validator_coverage exRoot1 (by decide)⟩
